import Mathlib

/-!
Payment system ledger (`pkg/storage`, `entity`, `internal/transfer`,
`internal/iban`, and the earlier store of `src/main.go`)

A shallow embedding of the in-memory account store of the repository, of its
identifier generator, and of the store without a context in `main.go`.

Modelling conventions:

* the Go map `items map[iban.IBAN]entity.Account` is a finite map
  (`Finmap`) from identifiers to accounts: unordered, one value per key;
* `iban.IBAN` and `entity.Status` are Go string types and stay strings;
* `float64` amounts are embedded twice.  In `namespace storage` they are exact
  rationals (`ℚ`): that embedding carries the properties that turn on the
  control flow (which test comes first, which entry is written, which error
  is returned) and on no law of arithmetic.  `Float64` is IEEE 754 binary64
  itself, with NaN, the infinities, signed zeros, subnormal values and
  rounding to nearest, ties to even; `namespace binary64` holds the same
  methods over it, and the properties that turn on the arithmetic (what a sum
  or a difference is, the test `<` at a NaN) are stated there;
* what `&v` is in `for _, v := range i.items` depends on the Go version the
  module is built with, and the order of `range` over a map is open: both are
  parameters of `GetAllAccounts`;
* a method with a pointer receiver that may write the map takes the store
  and returns the store it leaves behind, next to its Go result;
* `context.Context` is reduced to what the code reads from it: whether
  `Done()` is closed and which error `Err()` then gives; it does not change
  while one call runs;
* the mutex calls (`Lock`/`Unlock`) have no effect in a sequential run and
  are left out.
-/

namespace PaymentSys

/-! ## internal/iban -/

namespace iban

/-- Go `type IBAN string`. -/
abbrev IBAN := String

end iban

/-! ## entity -/

namespace entity

/-- Go `type Status string`. -/
abbrev Status := String

/-- Go `Active Status = "ACTIVE"`. -/
def Active : Status := "ACTIVE"

/-- Go `Disabled Status = "DISABLED"`. -/
def Disabled : Status := "DISABLED"

/-- Go `type Account struct`, the `float64` balance taken as an exact number;
`binary64.Account` has it as a `float64`. -/
structure Account where
  IBAN : iban.IBAN
  Balance : ℚ
  Status : Status
  deriving DecidableEq, Repr

end entity

/-- The error values the store can return: the three sentinel errors of
`entity`, the two errors `ctx.Err()` can give, and an error of
`json.Unmarshal`. -/
inductive Error where
  | AccountNotFound
  | AccountBlocked
  | InsufficientFunds
  | Canceled
  | DeadlineExceeded
  | Unmarshal
  deriving DecidableEq, Repr

/-! ## context -/

/-- What the store reads from a `context.Context`: `none` while `Done()` is
open, `some e` once it is closed, where `e` is the value of `Err()`. -/
inductive Context where
  | Background
  | Cancelled
  | Expired
  deriving DecidableEq, Repr

namespace Context

/-- Go `ctx.Err()`: nil while the context is live. -/
def Err : Context → Option Error
  | Background => none
  | Cancelled => some Error.Canceled
  | Expired => some Error.DeadlineExceeded

end Context

/-! ## internal/transfer -/

namespace transfer

/-- Go `type Transfer struct`. -/
structure Transfer where
  SenderIBAN : iban.IBAN
  ReceiverIBAN : iban.IBAN
  Amount : ℚ
  deriving DecidableEq, Repr

end transfer

/-! ## pkg/storage -/

namespace storage

open entity

/-- Go `type InMemoryStorage struct`: the map `items`. -/
structure InMemoryStorage where
  items : Finmap (fun _ : iban.IBAN => Account)
  deriving DecidableEq

/-- Go `NewStorage`: a store with an empty map. -/
def NewStorage : InMemoryStorage :=
  { items := ∅ }

namespace InMemoryStorage

/-- Go `GetAccount`: the result pair `(*entity.Account, error)` and the
store, which is only read. -/
def GetAccount (i : InMemoryStorage) (ctx : Context) (IBAN : iban.IBAN) :
    (Option Account × Option Error) × InMemoryStorage :=
  match ctx.Err with
  | some e => ((none, some e), i)
  | none =>
    match i.items.lookup IBAN with
    | none => ((none, some Error.AccountNotFound), i)
    | some acc => ((some acc, none), i)

/-- How the Go version of the module reads `for _, v := range`: before Go 1.22
`v` is one variable for the whole loop, from Go 1.22 on every iteration has a
variable of its own.  The version is the `go` line of `go.mod`, which is not
among the sources, so it is a parameter of `GetAllAccounts`. -/
inductive LoopVar where
  | PerLoop
  | PerIteration
  deriving DecidableEq, Repr

/-- A pointer that `append(accounts, &v)` stores: to the variable of its own
iteration, given by the account that variable holds, or to the one variable of
the loop. -/
inductive Ptr where
  | own (a : Account)
  | loop
  deriving DecidableEq, Repr

/-- The state of the loop of `GetAllAccounts`: the one loop variable `v` (not
yet assigned before the first iteration) and the slice `accounts`. -/
structure LoopState where
  v : Option Account
  accounts : List Ptr

/-- One iteration of `for _, v := range i.items` with body
`accounts = append(accounts, &v)`, visiting the account `a`. -/
def rangeStep (loopVar : LoopVar) (st : LoopState) (a : Account) : LoopState :=
  match loopVar with
  | LoopVar.PerIteration => { v := st.v, accounts := st.accounts ++ [Ptr.own a] }
  | LoopVar.PerLoop => { v := some a, accounts := st.accounts ++ [Ptr.loop] }

/-- Reading through a stored pointer after the loop. -/
def deref (st : LoopState) : Ptr → Option Account
  | Ptr.own a => some a
  | Ptr.loop => st.v

/-- The loop of `GetAllAccounts` over the accounts in the order it visits them,
and the accounts the returned pointers then give. -/
def rangeItems (loopVar : LoopVar) (visited : List Account) : List Account :=
  let st := visited.foldl (rangeStep loopVar) { v := none, accounts := [] }
  st.accounts.filterMap (deref st)

/-- Go `GetAllAccounts`.  `order` is the order in which `range` visits the keys
of the map, which Go leaves open: an enumeration of the stored keys.  The
slice is given by the accounts its pointers lead to; a nil slice is `none`. -/
def GetAllAccounts (i : InMemoryStorage) (ctx : Context) (loopVar : LoopVar)
    (order : List iban.IBAN) : (Option (List Account) × Option Error) × InMemoryStorage :=
  match ctx.Err with
  | some e => ((none, some e), i)
  | none =>
    ((some (rangeItems loopVar (order.filterMap fun k => i.items.lookup k)), none), i)

/-- Go `AddAccount`. -/
def AddAccount (i : InMemoryStorage) (ctx : Context) (account : Account) :
    Option Error × InMemoryStorage :=
  match ctx.Err with
  | some e => (some e, i)
  | none => (none, { items := i.items.insert account.IBAN account })

/-- Go `DepositFunds`. -/
def DepositFunds (i : InMemoryStorage) (ctx : Context) (IBAN : iban.IBAN) (amount : ℚ) :
    Option Error × InMemoryStorage :=
  match ctx.Err with
  | some e => (some e, i)
  | none =>
    match i.items.lookup IBAN with
    | none => (some Error.AccountNotFound, i)
    | some acc =>
      if acc.Status ≠ Active then (some Error.AccountBlocked, i)
      else
        (none, { items := i.items.insert IBAN { acc with Balance := acc.Balance + amount } })

/-- Go `WithdrawFunds`. -/
def WithdrawFunds (i : InMemoryStorage) (ctx : Context) (IBAN : iban.IBAN) (amount : ℚ) :
    Option Error × InMemoryStorage :=
  match ctx.Err with
  | some e => (some e, i)
  | none =>
    match i.items.lookup IBAN with
    | none => (some Error.AccountNotFound, i)
    | some acc =>
      if acc.Status ≠ Active then (some Error.AccountBlocked, i)
      else if acc.Balance < amount then (some Error.InsufficientFunds, i)
      else
        (none, { items := i.items.insert IBAN { acc with Balance := acc.Balance - amount } })

/-- Go `BeginTransaction`: an empty body. -/
def BeginTransaction (i : InMemoryStorage) (_ctx : Context) : InMemoryStorage := i

/-- Go `Rollback`: an empty body. -/
def Rollback (i : InMemoryStorage) (_ctx : Context) : InMemoryStorage := i

/-- Go `Commit`: an empty body. -/
def Commit (i : InMemoryStorage) (_ctx : Context) : InMemoryStorage := i

/-- Go `TransferFunds`.  `defer i.Rollback(ctx)` runs on every return after it
was registered, also on the successful one. -/
def TransferFunds (i : InMemoryStorage) (ctx : Context)
    (senderIBAN receiverIBAN : iban.IBAN) (amount : ℚ) : Option Error × InMemoryStorage :=
  match ctx.Err with
  | some e => (some e, i)
  | none =>
    let i0 := i.BeginTransaction ctx
    match i0.WithdrawFunds ctx senderIBAN amount with
    | (some err, i1) => (some err, i1.Rollback ctx)
    | (none, i1) =>
      match i1.DepositFunds ctx receiverIBAN amount with
      | (some err, i2) => (some err, i2.Rollback ctx)
      | (none, i2) => (none, (i2.Commit ctx).Rollback ctx)

/-- Go `TransferFundsJSON`.  `json.Unmarshal` into a `transfer.Transfer` is the
parameter `unmarshal`: the decoded record, or `none` for an error. -/
def TransferFundsJSON (unmarshal : List UInt8 → Option transfer.Transfer)
    (i : InMemoryStorage) (ctx : Context) (transferJSON : List UInt8) :
    Option Error × InMemoryStorage :=
  match ctx.Err with
  | some e => (some e, i)
  | none =>
    match unmarshal transferJSON with
    | none => (some Error.Unmarshal, i)
    | some transf =>
      match i.TransferFunds ctx transf.SenderIBAN transf.ReceiverIBAN transf.Amount with
      | (some err, i1) => (some err, i1)
      | (none, i1) => (none, i1)

end InMemoryStorage

end storage

/-! ## Sequences of calls -/

namespace storage

open entity

/-- One call of a method of the store, with its arguments: the seven methods
of the interface `Storage` and the three of `TransactionalStorage`.  A call of
`GetAllAccounts` also carries the reading of the loop variable and the order
of the visit it runs with. -/
inductive Call where
  | GetAccount (ctx : Context) (IBAN : iban.IBAN)
  | GetAllAccounts (ctx : Context) (loopVar : InMemoryStorage.LoopVar) (order : List iban.IBAN)
  | AddAccount (ctx : Context) (account : Account)
  | DepositFunds (ctx : Context) (IBAN : iban.IBAN) (amount : ℚ)
  | WithdrawFunds (ctx : Context) (IBAN : iban.IBAN) (amount : ℚ)
  | TransferFunds (ctx : Context) (senderIBAN receiverIBAN : iban.IBAN) (amount : ℚ)
  | TransferFundsJSON (ctx : Context) (transferJSON : List UInt8)
  | BeginTransaction (ctx : Context)
  | Rollback (ctx : Context)
  | Commit (ctx : Context)

namespace Call

/-- The store a call leaves behind. -/
def exec (unmarshal : List UInt8 → Option transfer.Transfer) (i : InMemoryStorage) :
    Call → InMemoryStorage
  | GetAccount ctx IBAN => (i.GetAccount ctx IBAN).2
  | GetAllAccounts ctx loopVar order => (i.GetAllAccounts ctx loopVar order).2
  | AddAccount ctx account => (i.AddAccount ctx account).2
  | DepositFunds ctx IBAN amount => (i.DepositFunds ctx IBAN amount).2
  | WithdrawFunds ctx IBAN amount => (i.WithdrawFunds ctx IBAN amount).2
  | TransferFunds ctx senderIBAN receiverIBAN amount =>
    (i.TransferFunds ctx senderIBAN receiverIBAN amount).2
  | TransferFundsJSON ctx transferJSON => (i.TransferFundsJSON unmarshal ctx transferJSON).2
  | BeginTransaction ctx => i.BeginTransaction ctx
  | Rollback ctx => i.Rollback ctx
  | Commit ctx => i.Commit ctx

end Call

/-- The store left by a finite sequence of calls, made one after the other. -/
def execAll (unmarshal : List UInt8 → Option transfer.Transfer) (i : InMemoryStorage)
    (calls : List Call) : InMemoryStorage :=
  calls.foldl (Call.exec unmarshal) i

/-- The spec's `TransferFundsViaPayload`, written from its words: decode the
record from the payload, fail with a decode error if it is malformed, otherwise
delegate to `TransferFunds`. -/
def TransferFundsViaPayload (unmarshal : List UInt8 → Option transfer.Transfer)
    (i : InMemoryStorage) (ctx : Context) (payload : List UInt8) :
    Option Error × InMemoryStorage :=
  match unmarshal payload with
  | none => (some Error.Unmarshal, i)
  | some t => i.TransferFunds ctx t.SenderIBAN t.ReceiverIBAN t.Amount

/-- The accounts stored under the same identifiers in `i` and `j` differ at
most in their balances, and outside the identifiers of `named` not at all: the
same identifiers are stored, each with the same `IBAN` and `Status`. -/
def SameUpToBalances (named : List iban.IBAN) (i j : InMemoryStorage) : Prop :=
  ∀ k, (j.items.lookup k).map Account.IBAN = (i.items.lookup k).map Account.IBAN ∧
    (j.items.lookup k).map Account.Status = (i.items.lookup k).map Account.Status ∧
    (k ∉ named → j.items.lookup k = i.items.lookup k)

end storage

/-! ## Observations used in the statements -/

namespace storage

open entity

/-- The balance of the account stored under `k`, if there is one. -/
def balanceOf (i : InMemoryStorage) (k : iban.IBAN) : Option ℚ :=
  (i.items.lookup k).map Account.Balance

end storage

/-! ## The fixtures of `inmemory_test.go` -/

namespace storage

open entity

/-- Go `testAccountActive`. -/
def testAccountActive : Account :=
  { IBAN := "BY20OLMP31350000001000000933", Balance := 100, Status := Active }

/-- Go `testAccountDisabled`. -/
def testAccountDisabled : Account :=
  { IBAN := "BY87MTBK38190000000000353409", Balance := 100, Status := Disabled }

/-- Go `testAccountWithZeroBalance`. -/
def testAccountWithZeroBalance : Account :=
  { IBAN := "BY87MTBK98220010020000353411", Balance := 0, Status := Active }

/-- Go `createStorageWithTestAccounts`: a new store with the three test
accounts added. -/
def createStorageWithTestAccounts : InMemoryStorage :=
  let ctx := Context.Background
  let storage := NewStorage
  let storage := (storage.AddAccount ctx testAccountActive).2
  let storage := (storage.AddAccount ctx testAccountDisabled).2
  let storage := (storage.AddAccount ctx testAccountWithZeroBalance).2
  storage

end storage

namespace storage

open entity

/-- Go `[]byte(s)`: the bytes of a string. -/
def bytes (s : String) : List UInt8 :=
  s.toUTF8.data.toList

/-- Go `TestJSON`. -/
def TestJSON : String :=
  "\x7b\"sender_IBAN\":\"BY20OLMP31350000001000000933\",\"receiver_IBAN\":\"BY87MTBK98220010020000353411\",\"amount\":100\x7d"

/-- Go `TestJSONWithWrongSenderIBAN`. -/
def TestJSONWithWrongSenderIBAN : String :=
  "\x7b\"sender_IBAN\":\"BY20OLMP31350000001030000933\",\"receiver_IBAN\":\"BY87MTBK98220010020000353411\",\"amount\":100\x7d"

/-- Go `TestJSONWithWrongReceiverIBAN`. -/
def TestJSONWithWrongReceiverIBAN : String :=
  "\x7b\"sender_IBAN\":\"BY20OLMP31350000001000000933\",\"receiver_IBAN\":\"BY87MTBK98220010340000353411\",\"amount\":100\x7d"

/-- A stand-in for `json.Unmarshal` into a `transfer.Transfer` on the payloads
of the test file: the three JSON constants decode to the records they spell,
and `testjson`, which is not JSON, is an error.  No other payload is used with
it. -/
def testUnmarshal (data : List UInt8) : Option transfer.Transfer :=
  if data = bytes TestJSON then
    some { SenderIBAN := "BY20OLMP31350000001000000933",
           ReceiverIBAN := "BY87MTBK98220010020000353411", Amount := 100 }
  else if data = bytes TestJSONWithWrongSenderIBAN then
    some { SenderIBAN := "BY20OLMP31350000001030000933",
           ReceiverIBAN := "BY87MTBK98220010020000353411", Amount := 100 }
  else if data = bytes TestJSONWithWrongReceiverIBAN then
    some { SenderIBAN := "BY20OLMP31350000001000000933",
           ReceiverIBAN := "BY87MTBK98220010340000353411", Amount := 100 }
  else none

end storage

/-! ## internal/iban: `GenerateIBAN` -/

namespace iban

/-- The global source of `math/rand`, as the sequence of the raw values its
next draws will give. -/
structure Source where
  next : Nat → Nat

namespace Source

/-- Go `rand.Intn(n)` for `n > 0`: a value in `[0, n)`, here the next raw value
reduced modulo `n`, and the source after the draw.  Every value in `[0, n)` is
the result for some source. -/
def Intn (s : Source) (n : Nat) : Nat × Source :=
  (s.next 0 % n, { next := fun k => s.next (k + 1) })

end Source

/-- Go `fmt.Sprintf("%02d", n)` for an `n` that is not negative: decimal, padded
with a zero to two places. -/
def Sprintf02d (n : Nat) : String :=
  if n < 10 then "0" ++ toString n else toString n

/-- Go `fmt.Sprintf("%d", n)` for an `n` that is not negative. -/
def Sprintfd (n : Nat) : String :=
  toString n

/-- The first loop of `GenerateIBAN`, `for i := 0; i < 4; i++`, with `n`
iterations left: each one appends to `bankCode` the string of the rune
`A + rune(rand.Intn(26))`. -/
def bankCodeLoop : Nat → String → Source → String × Source
  | 0, bankCode, s => (bankCode, s)
  | n + 1, bankCode, s =>
    let (k, s) := s.Intn 26
    bankCodeLoop n (bankCode ++ String.singleton (Char.ofNat ('A'.toNat + k))) s

/-- The second loop of `GenerateIBAN`, `for i := 0; i < 20; i++`, with `n`
iterations left: each one appends `fmt.Sprintf("%d", rand.Intn(10))` to
`accountNumber`. -/
def accountNumberLoop : Nat → String → Source → String × Source
  | 0, accountNumber, s => (accountNumber, s)
  | n + 1, accountNumber, s =>
    let (d, s) := s.Intn 10
    accountNumberLoop n (accountNumber ++ Sprintfd d) s

/-- Go `GenerateIBAN`: the identifier and the random source after the 25 draws. -/
def GenerateIBAN (countryCode : String) (s : Source) : IBAN × Source :=
  let (c, s) := s.Intn 100
  let checkNumber := Sprintf02d c
  let (bankCode, s) := bankCodeLoop 4 "" s
  let (accountNumber, s) := accountNumberLoop 20 "" s
  (countryCode ++ checkNumber ++ bankCode ++ accountNumber, s)

end iban

/-! ## `src/main.go`: the store without a context -/

namespace main

/-- Go `type Account struct` of `main.go`: the status is an `int`. -/
structure Account where
  IBAN : String
  Balance : ℚ
  Status : Int
  deriving DecidableEq, Repr

/-- Go `Active = iota`. -/
def Active : Int := 0

/-- Go `Blocked`, the second constant of the `iota` block. -/
def Blocked : Int := 1

/-- Go `type InMemoryStorage struct` of `main.go`. -/
structure InMemoryStorage where
  items : Finmap (fun _ : String => Account)
  deriving DecidableEq

/-- Go `NewStorage` of `main.go`. -/
def NewStorage : InMemoryStorage :=
  { items := ∅ }

/-- Go `StateAccountIBAN`. -/
def StateAccountIBAN : String := "BY20OLMP31350000001000000933"

/-- Go `DestructionAccountIBAN`. -/
def DestructionAccountIBAN : String := "BY87MTBK38190000000000353409"

namespace InMemoryStorage

/-- Go `InitDefaultAccounts`: the two system accounts, with the zero value of
`Status`. -/
def InitDefaultAccounts (i : InMemoryStorage) : InMemoryStorage :=
  let i1 : InMemoryStorage :=
    { items := i.items.insert StateAccountIBAN
        { IBAN := StateAccountIBAN, Balance := 0, Status := 0 } }
  { items := i1.items.insert DestructionAccountIBAN
      { IBAN := DestructionAccountIBAN, Balance := 0, Status := 0 } }

/-- Go `GetAccount` of `main.go`.  An error made by `errors.New` is given by
its text. -/
def GetAccount (i : InMemoryStorage) (IBAN : String) :
    (Option Account × Option String) × InMemoryStorage :=
  match i.items.lookup IBAN with
  | none => ((none, some "аккаунт не найден"), i)
  | some account => ((some account, none), i)

/-- Go `AddAccount` of `main.go`, which returns nothing. -/
def AddAccount (i : InMemoryStorage) (account : Account) : InMemoryStorage :=
  { items := i.items.insert account.IBAN account }

/-- Go `DepositFunds` of `main.go`. -/
def DepositFunds (i : InMemoryStorage) (IBAN : String) (amount : ℚ) :
    Option String × InMemoryStorage :=
  match i.items.lookup IBAN with
  | none => (some "аккаунт не найден", i)
  | some account =>
    if account.Status = Blocked then (some "аккаунт заблокирован", i)
    else
      (none,
        { items := i.items.insert IBAN { account with Balance := account.Balance + amount } })

/-- Go `WithdrawFunds` of `main.go`. -/
def WithdrawFunds (i : InMemoryStorage) (IBAN : String) (amount : ℚ) :
    Option String × InMemoryStorage :=
  match i.items.lookup IBAN with
  | none => (some "аккаунт не найден", i)
  | some account =>
    if account.Status = Blocked then (some "аккаунт заблокирован", i)
    else if account.Balance < amount then (some "недостаточно средств", i)
    else
      (none,
        { items := i.items.insert IBAN { account with Balance := account.Balance - amount } })

/-- Go `TransferFunds` of `main.go`. -/
def TransferFunds (i : InMemoryStorage) (senderIBAN receiverIBAN : String) (amount : ℚ) :
    Option String × InMemoryStorage :=
  match i.WithdrawFunds senderIBAN amount with
  | (some err, i1) => (some err, i1)
  | (none, i1) =>
    match i1.DepositFunds receiverIBAN amount with
    | (some err, i2) => (some err, i2)
    | (none, i2) => (none, i2)

end InMemoryStorage

end main

/-! ## The correspondence between the two stores -/

namespace storage

open entity

/-- The correspondence of the statuses: `Active` of `main.go` with `ACTIVE`,
`Blocked` with `DISABLED`; no other value of either type corresponds to
anything. -/
def StatusCorr (s : Int) (t : Status) : Prop :=
  (s = main.Active ∧ t = Active) ∨ (s = main.Blocked ∧ t = Disabled)

/-- Two accounts correspond: the same identifier, the same balance, and
statuses that correspond. -/
def AccountCorr (a : main.Account) (b : Account) : Prop :=
  a.IBAN = b.IBAN ∧ a.Balance = b.Balance ∧ StatusCorr a.Status b.Status

/-- The results of a lookup correspond: both miss, or both find accounts that
correspond. -/
def LookupCorr : Option main.Account → Option Account → Prop
  | none, none => True
  | some a, some b => AccountCorr a b
  | _, _ => False

/-- Two stores correspond: the same identifiers are stored, with accounts that
correspond. -/
def StoreCorr (m : main.InMemoryStorage) (p : InMemoryStorage) : Prop :=
  ∀ k, LookupCorr (m.items.lookup k) (p.items.lookup k)

/-- The two stores fail in the same case: both return nil, or both return
the error for an account not found, for a blocked account, or for insufficient
funds; the texts are those of `entity.go`, which `main.go` repeats. -/
def ErrorCorr : Option String → Option Error → Prop
  | none, none => True
  | some msg, some e =>
    (msg = "аккаунт не найден" ∧ e = Error.AccountNotFound) ∨
      (msg = "аккаунт заблокирован" ∧ e = Error.AccountBlocked) ∨
      (msg = "недостаточно средств" ∧ e = Error.InsufficientFunds)
  | _, _ => False

end storage

/-! ## `float64` -/

/-- A value of Go's `float64`, IEEE 754 binary64: a NaN (all NaNs are one value
here), an infinity with its sign, or a finite value `(-1)^neg * m * 2^e`.  The
finite values of binary64 are those with `m < 2^53`, `-1074 ≤ e ≤ 971`, and
`2^52 ≤ m` unless `e = -1074`; zero is `m = 0` at `e = -1074`, with either
sign.  The operations below take such values to such values. -/
inductive Float64 where
  | NaN
  | Inf (neg : Bool)
  | Finite (neg : Bool) (m : Nat) (e : Int)
  deriving DecidableEq, Repr

namespace Float64

/-- The number of binary digits of `n`, for `n < 2^fuel`. -/
def bitLen : Nat → Nat → Nat
  | 0, _ => 0
  | fuel + 1, n => if n = 0 then 0 else bitLen fuel (n / 2) + 1

/-- A rounded result `m * 2^e` with `2^52 ≤ m < 2^53` is too large for binary64
when `e > 971`, and is then the infinity of its sign. -/
def overflow (neg : Bool) (m : Nat) (e : Int) : Float64 :=
  if e > 971 then Inf neg else Finite neg m e

/-- Rounding of the exact value `(-1)^neg * M * 2^E`, with `E ≥ -1074`, to
binary64, to nearest with ties to the even significand: a value of at most 53
digits is kept (with the largest significand its exponent allows), a longer one
loses its low digits. -/
def round (neg : Bool) (M : Nat) (E : Int) : Float64 :=
  if M = 0 then Finite neg 0 (-1074)
  else
    let L := bitLen 2200 M
    if L ≤ 53 then
      let d := min (53 - L) (E + 1074).toNat
      overflow neg (M * 2 ^ d) (E - d)
    else
      let s := L - 53
      let q := M / 2 ^ s
      let r := M % 2 ^ s
      let half := 2 ^ (s - 1)
      let q1 := if half < r ∨ (r = half ∧ q % 2 = 1) then q + 1 else q
      if q1 = 2 ^ 53 then overflow neg (2 ^ 52) (E + s + 1) else overflow neg q1 (E + s)

/-- The integer `(-1)^neg * n`. -/
def signed (neg : Bool) (n : Nat) : Int :=
  if neg then -(n : Int) else n

/-- Go `a + b` on `float64`: the exact sum, rounded.  An exact zero is `+0`
unless both operands are negative. -/
def add : Float64 → Float64 → Float64
  | NaN, _ => NaN
  | _, NaN => NaN
  | Inf s, Inf t => if s = t then Inf s else NaN
  | Inf s, Finite _ _ _ => Inf s
  | Finite _ _ _, Inf t => Inf t
  | Finite s m e, Finite t n f =>
    let E := min e f
    let c := signed s (m * 2 ^ (e - E).toNat) + signed t (n * 2 ^ (f - E).toNat)
    if c = 0 then Finite (s && t) 0 (-1074) else round (decide (c < 0)) c.natAbs E

/-- Go `-a` on `float64`. -/
def neg : Float64 → Float64
  | NaN => NaN
  | Inf s => Inf (!s)
  | Finite s m e => Finite (!s) m e

/-- Go `a - b` on `float64`, which is `a + (-b)`. -/
def sub (a b : Float64) : Float64 :=
  add a (neg b)

/-- Go `a < b` on `float64`: false when either is NaN. -/
def lt : Float64 → Float64 → Bool
  | NaN, _ => false
  | _, NaN => false
  | Inf s, Inf t => s && !t
  | Inf s, Finite _ _ _ => s
  | Finite _ _ _, Inf t => !t
  | Finite s m e, Finite t n f =>
    let E := min e f
    decide (signed s (m * 2 ^ (e - E).toNat) < signed t (n * 2 ^ (f - E).toNat))

/-- Go `a <= b` on `float64`: false when either is NaN. -/
def le : Float64 → Float64 → Bool
  | NaN, _ => false
  | _, NaN => false
  | Inf s, Inf t => s || !t
  | Inf s, Finite _ _ _ => s
  | Finite _ _ _, Inf t => !t
  | Finite s m e, Finite t n f =>
    let E := min e f
    decide (signed s (m * 2 ^ (e - E).toNat) ≤ signed t (n * 2 ^ (f - E).toNat))

/-- The `float64` of a natural number, as a constant such as `100` in the
source is converted. -/
def ofNat (n : Nat) : Float64 :=
  round false n 0

/-- The `float64` zero, `+0`. -/
def zero : Float64 :=
  Finite false 0 (-1074)

/-- The number a finite value stands for; NaN and the infinities stand for
none. -/
def toRat? : Float64 → Option ℚ
  | Finite s m e => some ((signed s m : ℚ) * (2 : ℚ) ^ e)
  | _ => none

/-- The subtraction `a - b` does not round: its result stands for the
difference of the numbers `a` and `b` stand for. -/
def ExactSub (a b : Float64) : Prop :=
  ∃ va vb, a.toRat? = some va ∧ b.toRat? = some vb ∧ (sub a b).toRat? = some (va - vb)

/-- The addition `a + b` does not round: its result stands for the sum of the
numbers `a` and `b` stand for. -/
def ExactAdd (a b : Float64) : Prop :=
  ∃ va vb, a.toRat? = some va ∧ b.toRat? = some vb ∧ (add a b).toRat? = some (va + vb)

end Float64

/-! ## `pkg/storage` with `float64` amounts

The embedding above takes amounts as exact numbers, which is enough wherever a
claim turns on the control flow only.  Where a claim turns on the arithmetic
itself (a NaN, a rounded sum) it is settled on this second embedding of the
same methods, in which `Balance` and the amounts are `float64`. -/

namespace binary64

open entity

/-- Go `type Account struct`, with the `float64` balance. -/
structure Account where
  IBAN : iban.IBAN
  Balance : Float64
  Status : Status
  deriving DecidableEq, Repr

/-- Go `type InMemoryStorage struct`: the map `items`. -/
structure InMemoryStorage where
  items : Finmap (fun _ : iban.IBAN => Account)
  deriving DecidableEq

/-- Go `NewStorage`. -/
def NewStorage : InMemoryStorage :=
  { items := ∅ }

namespace InMemoryStorage

/-- Go `AddAccount`. -/
def AddAccount (i : InMemoryStorage) (ctx : Context) (account : Account) :
    Option Error × InMemoryStorage :=
  match ctx.Err with
  | some e => (some e, i)
  | none => (none, { items := i.items.insert account.IBAN account })

/-- Go `DepositFunds`. -/
def DepositFunds (i : InMemoryStorage) (ctx : Context) (IBAN : iban.IBAN)
    (amount : Float64) : Option Error × InMemoryStorage :=
  match ctx.Err with
  | some e => (some e, i)
  | none =>
    match i.items.lookup IBAN with
    | none => (some Error.AccountNotFound, i)
    | some acc =>
      if acc.Status ≠ Active then (some Error.AccountBlocked, i)
      else
        (none,
          { items := i.items.insert IBAN { acc with Balance := acc.Balance.add amount } })

/-- Go `WithdrawFunds`. -/
def WithdrawFunds (i : InMemoryStorage) (ctx : Context) (IBAN : iban.IBAN)
    (amount : Float64) : Option Error × InMemoryStorage :=
  match ctx.Err with
  | some e => (some e, i)
  | none =>
    match i.items.lookup IBAN with
    | none => (some Error.AccountNotFound, i)
    | some acc =>
      if acc.Status ≠ Active then (some Error.AccountBlocked, i)
      else if acc.Balance.lt amount then (some Error.InsufficientFunds, i)
      else
        (none,
          { items := i.items.insert IBAN { acc with Balance := acc.Balance.sub amount } })

/-- Go `BeginTransaction`: an empty body. -/
def BeginTransaction (i : InMemoryStorage) (_ctx : Context) : InMemoryStorage := i

/-- Go `Rollback`: an empty body. -/
def Rollback (i : InMemoryStorage) (_ctx : Context) : InMemoryStorage := i

/-- Go `Commit`: an empty body. -/
def Commit (i : InMemoryStorage) (_ctx : Context) : InMemoryStorage := i

/-- Go `TransferFunds`.  `defer i.Rollback(ctx)` runs on every return after it
was registered, also on the successful one. -/
def TransferFunds (i : InMemoryStorage) (ctx : Context)
    (senderIBAN receiverIBAN : iban.IBAN) (amount : Float64) :
    Option Error × InMemoryStorage :=
  match ctx.Err with
  | some e => (some e, i)
  | none =>
    let i0 := i.BeginTransaction ctx
    match i0.WithdrawFunds ctx senderIBAN amount with
    | (some err, i1) => (some err, i1.Rollback ctx)
    | (none, i1) =>
      match i1.DepositFunds ctx receiverIBAN amount with
      | (some err, i2) => (some err, i2.Rollback ctx)
      | (none, i2) => (none, (i2.Commit ctx).Rollback ctx)

end InMemoryStorage

/-- The balance of the account stored under `k`, if there is one. -/
def balanceOf (i : InMemoryStorage) (k : iban.IBAN) : Option Float64 :=
  (i.items.lookup k).map Account.Balance

/-- The sum of the balances of all stored accounts, each taken as the exact
number it stands for (a NaN or an infinity counts as 0).  No function of the
source computes it: it is the total that the conservation property speaks
of. -/
def totalBalance (i : InMemoryStorage) : ℚ :=
  ∑ k in i.items.keys, ((i.items.lookup k).bind fun a => a.Balance.toRat?).getD 0

/-- Go `testAccountActive`. -/
def testAccountActive : Account :=
  { IBAN := "BY20OLMP31350000001000000933", Balance := Float64.ofNat 100, Status := Active }

/-- Go `testAccountDisabled`. -/
def testAccountDisabled : Account :=
  { IBAN := "BY87MTBK38190000000000353409", Balance := Float64.ofNat 100, Status := Disabled }

/-- Go `testAccountWithZeroBalance`. -/
def testAccountWithZeroBalance : Account :=
  { IBAN := "BY87MTBK98220010020000353411", Balance := Float64.ofNat 0, Status := Active }

/-- Go `createStorageWithTestAccounts`. -/
def createStorageWithTestAccounts : InMemoryStorage :=
  let ctx := Context.Background
  let storage := NewStorage
  let storage := (storage.AddAccount ctx testAccountActive).2
  let storage := (storage.AddAccount ctx testAccountDisabled).2
  let storage := (storage.AddAccount ctx testAccountWithZeroBalance).2
  storage

/-- An account with the balance 9007199254740994, which is `2^53 + 2`: the
`float64` values next to it are 2 apart. -/
def largeAccount : Account :=
  { IBAN := "BY20OLMP31350000001000000933", Balance := Float64.ofNat 9007199254740994,
    Status := Active }

/-- A new store with `largeAccount` and `testAccountWithZeroBalance` added. -/
def largeStorage : InMemoryStorage :=
  let ctx := Context.Background
  let storage := NewStorage
  let storage := (storage.AddAccount ctx largeAccount).2
  let storage := (storage.AddAccount ctx testAccountWithZeroBalance).2
  storage

end binary64

/-! ## Basic facts about the operations -/

namespace storage

open entity

namespace InMemoryStorage

theorem WithdrawFunds_of_lookup {i : InMemoryStorage} {ctx : Context} {k : iban.IBAN}
    {acc : Account} (amount : ℚ) (hctx : ctx.Err = none) (hk : i.items.lookup k = some acc)
    (hst : acc.Status = Active) (hbal : amount ≤ acc.Balance) :
    i.WithdrawFunds ctx k amount =
      (none, { items := i.items.insert k { acc with Balance := acc.Balance - amount } }) := by
  simp [WithdrawFunds, hctx, hk, hst, not_lt.mpr hbal]

theorem DepositFunds_of_lookup {i : InMemoryStorage} {ctx : Context} {k : iban.IBAN}
    {acc : Account} (amount : ℚ) (hctx : ctx.Err = none) (hk : i.items.lookup k = some acc)
    (hst : acc.Status = Active) :
    i.DepositFunds ctx k amount =
      (none, { items := i.items.insert k { acc with Balance := acc.Balance + amount } }) := by
  simp [DepositFunds, hctx, hk, hst]

theorem WithdrawFunds_not_found {i : InMemoryStorage} {ctx : Context} {k : iban.IBAN}
    (amount : ℚ) (hctx : ctx.Err = none) (hk : i.items.lookup k = none) :
    i.WithdrawFunds ctx k amount = (some Error.AccountNotFound, i) := by
  simp [WithdrawFunds, hctx, hk]

theorem WithdrawFunds_blocked {i : InMemoryStorage} {ctx : Context} {k : iban.IBAN}
    {acc : Account} (amount : ℚ) (hctx : ctx.Err = none) (hk : i.items.lookup k = some acc)
    (hst : acc.Status ≠ Active) :
    i.WithdrawFunds ctx k amount = (some Error.AccountBlocked, i) := by
  simp [WithdrawFunds, hctx, hk, hst]

theorem WithdrawFunds_insufficient {i : InMemoryStorage} {ctx : Context} {k : iban.IBAN}
    {acc : Account} {amount : ℚ} (hctx : ctx.Err = none) (hk : i.items.lookup k = some acc)
    (hst : acc.Status = Active) (hbal : acc.Balance < amount) :
    i.WithdrawFunds ctx k amount = (some Error.InsufficientFunds, i) := by
  simp [WithdrawFunds, hctx, hk, hst, hbal]

theorem DepositFunds_not_found {i : InMemoryStorage} {ctx : Context} {k : iban.IBAN}
    (amount : ℚ) (hctx : ctx.Err = none) (hk : i.items.lookup k = none) :
    i.DepositFunds ctx k amount = (some Error.AccountNotFound, i) := by
  simp [DepositFunds, hctx, hk]

theorem DepositFunds_blocked {i : InMemoryStorage} {ctx : Context} {k : iban.IBAN}
    {acc : Account} (amount : ℚ) (hctx : ctx.Err = none) (hk : i.items.lookup k = some acc)
    (hst : acc.Status ≠ Active) :
    i.DepositFunds ctx k amount = (some Error.AccountBlocked, i) := by
  simp [DepositFunds, hctx, hk, hst]

/-- With a closed `Done()` every write operation returns `ctx.Err()` at once. -/
theorem WithdrawFunds_done {i : InMemoryStorage} {ctx : Context} {e : Error}
    (k : iban.IBAN) (amount : ℚ) (hctx : ctx.Err = some e) :
    i.WithdrawFunds ctx k amount = (some e, i) := by
  simp [WithdrawFunds, hctx]

theorem DepositFunds_done {i : InMemoryStorage} {ctx : Context} {e : Error}
    (k : iban.IBAN) (amount : ℚ) (hctx : ctx.Err = some e) :
    i.DepositFunds ctx k amount = (some e, i) := by
  simp [DepositFunds, hctx]

/-- A withdrawal that returns nil found an Active account with enough funds and
stored it back with the amount taken off. -/
theorem WithdrawFunds_ok_inv {i : InMemoryStorage} {ctx : Context} {k : iban.IBAN}
    {amount : ℚ} (h : (i.WithdrawFunds ctx k amount).1 = none) :
    ∃ acc, ctx.Err = none ∧ i.items.lookup k = some acc ∧ acc.Status = Active ∧
      amount ≤ acc.Balance ∧
      (i.WithdrawFunds ctx k amount).2 =
        { items := i.items.insert k { acc with Balance := acc.Balance - amount } } := by
  cases hctx : ctx.Err with
  | some e => simp [WithdrawFunds, hctx] at h
  | none =>
    cases hk : i.items.lookup k with
    | none => simp [WithdrawFunds, hctx, hk] at h
    | some acc =>
      by_cases hst : acc.Status = Active
      · by_cases hbal : acc.Balance < amount
        · simp [WithdrawFunds, hctx, hk, hst, hbal] at h
        · exact ⟨acc, rfl, rfl, hst, not_lt.mp hbal, by
            rw [WithdrawFunds_of_lookup amount hctx hk hst (not_lt.mp hbal)]⟩
      · simp [WithdrawFunds, hctx, hk, hst] at h

/-- A deposit that returns nil found an Active account and stored it back with
the amount added. -/
theorem DepositFunds_ok_inv {i : InMemoryStorage} {ctx : Context} {k : iban.IBAN}
    {amount : ℚ} (h : (i.DepositFunds ctx k amount).1 = none) :
    ∃ acc, ctx.Err = none ∧ i.items.lookup k = some acc ∧ acc.Status = Active ∧
      (i.DepositFunds ctx k amount).2 =
        { items := i.items.insert k { acc with Balance := acc.Balance + amount } } := by
  cases hctx : ctx.Err with
  | some e => simp [DepositFunds, hctx] at h
  | none =>
    cases hk : i.items.lookup k with
    | none => simp [DepositFunds, hctx, hk] at h
    | some acc =>
      by_cases hst : acc.Status = Active
      · exact ⟨acc, rfl, rfl, hst, by rw [DepositFunds_of_lookup amount hctx hk hst]⟩
      · simp [DepositFunds, hctx, hk, hst] at h

/-- With a live context `TransferFunds` is the withdrawal followed, when it
returned nil, by the deposit on the store the withdrawal left; the three
transaction hooks change nothing. -/
theorem TransferFunds_live {i : InMemoryStorage} {ctx : Context} (s r : iban.IBAN)
    (amount : ℚ) (hctx : ctx.Err = none) :
    i.TransferFunds ctx s r amount =
      if (i.WithdrawFunds ctx s amount).1 = none then
        (i.WithdrawFunds ctx s amount).2.DepositFunds ctx r amount
      else i.WithdrawFunds ctx s amount := by
  unfold TransferFunds
  simp only [hctx, BeginTransaction, Rollback, Commit]
  rcases hw : i.WithdrawFunds ctx s amount with ⟨_ | e, i1⟩
  · rcases hd : i1.DepositFunds ctx r amount with ⟨_ | e, i2⟩ <;> simp [hd]
  · simp

theorem TransferFunds_done {i : InMemoryStorage} {ctx : Context} {e : Error}
    (s r : iban.IBAN) (amount : ℚ) (hctx : ctx.Err = some e) :
    i.TransferFunds ctx s r amount = (some e, i) := by
  simp [TransferFunds, hctx]

/-- A transfer to an identifier that is not stored: the withdrawal is written,
the deposit returns `AccountNotFound`, and nothing undoes the withdrawal. -/
theorem TransferFunds_receiver_not_found {i : InMemoryStorage} {ctx : Context}
    {s r : iban.IBAN} {acc : Account} (x : ℚ) (hctx : ctx.Err = none)
    (hs : i.items.lookup s = some acc) (hst : acc.Status = Active) (hbal : x ≤ acc.Balance)
    (hr : i.items.lookup r = none) :
    i.TransferFunds ctx s r x =
      (some Error.AccountNotFound,
        { items := i.items.insert s { acc with Balance := acc.Balance - x } }) := by
  have hne : r ≠ s := by
    rintro rfl
    rw [hs] at hr
    cases hr
  have hw := WithdrawFunds_of_lookup x hctx hs hst hbal
  have hr1 : (i.WithdrawFunds ctx s x).2.items.lookup r = none := by
    rw [hw]
    simp only
    rw [Finmap.lookup_insert_of_ne _ hne]
    exact hr
  rw [TransferFunds_live s r x hctx, if_pos (by rw [hw]), DepositFunds_not_found x hctx hr1, hw]

end InMemoryStorage

/-! ### What a call can change -/

namespace SameUpToBalances

theorem refl (named : List iban.IBAN) (i : InMemoryStorage) : SameUpToBalances named i i :=
  fun _ => ⟨rfl, rfl, fun _ => rfl⟩

theorem trans {n₁ n₂ : List iban.IBAN} {i j l : InMemoryStorage}
    (h₁ : SameUpToBalances n₁ i j) (h₂ : SameUpToBalances n₂ j l) :
    SameUpToBalances (n₁ ++ n₂) i l := by
  intro k
  obtain ⟨a₁, b₁, c₁⟩ := h₁ k
  obtain ⟨a₂, b₂, c₂⟩ := h₂ k
  refine ⟨a₂.trans a₁, b₂.trans b₁, fun hk => ?_⟩
  rw [List.mem_append, not_or] at hk
  exact (c₂ hk.2).trans (c₁ hk.1)

theorem mono {n₁ n₂ : List iban.IBAN} {i j : InMemoryStorage} (hsub : n₁ ⊆ n₂)
    (h : SameUpToBalances n₁ i j) : SameUpToBalances n₂ i j :=
  fun k => ⟨(h k).1, (h k).2.1, fun hk => (h k).2.2 fun hk1 => hk (hsub hk1)⟩

/-- The same identifiers are stored. -/
theorem keys_eq {named : List iban.IBAN} {i j : InMemoryStorage}
    (h : SameUpToBalances named i j) : j.items.keys = i.items.keys := by
  ext k
  rw [Finmap.mem_keys, Finmap.mem_keys, ← Finmap.lookup_isSome, ← Finmap.lookup_isSome]
  have hk := congrArg Option.isSome (h k).1
  simpa using hk

/-- An identifier that is not stored stays so. -/
theorem lookup_eq_none {named : List iban.IBAN} {i j : InMemoryStorage}
    (h : SameUpToBalances named i j) {k : iban.IBAN} (hk : i.items.lookup k = none) :
    j.items.lookup k = none := by
  have h1 := (h k).1
  rw [hk] at h1
  simpa using h1

/-- Writing back under `k` the account stored there, with another balance. -/
theorem of_insert {i : InMemoryStorage} {k : iban.IBAN} {acc : Account} (b : ℚ)
    (hk : i.items.lookup k = some acc) :
    SameUpToBalances [k] i { items := i.items.insert k { acc with Balance := b } } := by
  intro j
  by_cases hj : j = k
  · subst hj
    simp [Finmap.lookup_insert, hk]
  · simp [Finmap.lookup_insert_of_ne _ hj, hj]

end SameUpToBalances

namespace InMemoryStorage

/-- The store `DepositFunds` leaves: the one it was given, or that one with the
balance of the account under `k` raised. -/
theorem DepositFunds_store (i : InMemoryStorage) (ctx : Context) (k : iban.IBAN) (x : ℚ) :
    ((i.DepositFunds ctx k x).1 ≠ none ∧ (i.DepositFunds ctx k x).2 = i) ∨
      ∃ acc, i.items.lookup k = some acc ∧ (i.DepositFunds ctx k x).1 = none ∧
        (i.DepositFunds ctx k x).2 =
          { items := i.items.insert k { acc with Balance := acc.Balance + x } } := by
  cases h : (i.DepositFunds ctx k x).1 with
  | none =>
    obtain ⟨acc, -, hk, -, hd⟩ := DepositFunds_ok_inv h
    exact Or.inr ⟨acc, hk, rfl, hd⟩
  | some e =>
    refine Or.inl ⟨by simp, ?_⟩
    unfold DepositFunds at h ⊢
    split <;> try rfl
    split <;> try rfl
    split <;> try rfl
    rename_i h1 _ _ h2 h3
    simp [h1, h2, h3] at h

/-- The store `WithdrawFunds` leaves: the one it was given, or that one with
the balance of the account under `k` lowered. -/
theorem WithdrawFunds_store (i : InMemoryStorage) (ctx : Context) (k : iban.IBAN) (x : ℚ) :
    ((i.WithdrawFunds ctx k x).1 ≠ none ∧ (i.WithdrawFunds ctx k x).2 = i) ∨
      ∃ acc, i.items.lookup k = some acc ∧ (i.WithdrawFunds ctx k x).1 = none ∧
        (i.WithdrawFunds ctx k x).2 =
          { items := i.items.insert k { acc with Balance := acc.Balance - x } } := by
  cases h : (i.WithdrawFunds ctx k x).1 with
  | none =>
    obtain ⟨acc, -, hk, -, -, hd⟩ := WithdrawFunds_ok_inv h
    exact Or.inr ⟨acc, hk, rfl, hd⟩
  | some e =>
    refine Or.inl ⟨by simp, ?_⟩
    unfold WithdrawFunds at h ⊢
    split <;> try rfl
    split <;> try rfl
    split <;> try rfl
    split <;> try rfl
    rename_i h1 _ _ h2 h3 h4
    simp [h1, h2, h3, h4] at h

/-- A withdrawal that returns an error leaves the store as it was. -/
theorem WithdrawFunds_err {i : InMemoryStorage} {ctx : Context} {k : iban.IBAN} {x : ℚ}
    {e : Error} (h : (i.WithdrawFunds ctx k x).1 = some e) :
    i.WithdrawFunds ctx k x = (some e, i) := by
  rcases WithdrawFunds_store i ctx k x with ⟨-, hs⟩ | ⟨acc, -, hn, -⟩
  · exact Prod.ext h hs
  · rw [hn] at h
    cases h

/-- A deposit that returns an error leaves the store as it was. -/
theorem DepositFunds_err {i : InMemoryStorage} {ctx : Context} {k : iban.IBAN} {x : ℚ}
    {e : Error} (h : (i.DepositFunds ctx k x).1 = some e) :
    i.DepositFunds ctx k x = (some e, i) := by
  rcases DepositFunds_store i ctx k x with ⟨-, hs⟩ | ⟨acc, -, hn, -⟩
  · exact Prod.ext h hs
  · rw [hn] at h
    cases h

theorem DepositFunds_frame (i : InMemoryStorage) (ctx : Context) (k : iban.IBAN) (x : ℚ) :
    SameUpToBalances [k] i (i.DepositFunds ctx k x).2 := by
  rcases DepositFunds_store i ctx k x with ⟨-, hs⟩ | ⟨acc, hk, -, hs⟩
  · rw [hs]
    exact SameUpToBalances.refl _ _
  · rw [hs]
    exact SameUpToBalances.of_insert _ hk

theorem WithdrawFunds_frame (i : InMemoryStorage) (ctx : Context) (k : iban.IBAN) (x : ℚ) :
    SameUpToBalances [k] i (i.WithdrawFunds ctx k x).2 := by
  rcases WithdrawFunds_store i ctx k x with ⟨-, hs⟩ | ⟨acc, hk, -, hs⟩
  · rw [hs]
    exact SameUpToBalances.refl _ _
  · rw [hs]
    exact SameUpToBalances.of_insert _ hk

/-- The store `TransferFunds` leaves is the store the deposit leaves when the
withdrawal returned nil, and the store it was given when it did not. -/
theorem TransferFunds_store (i : InMemoryStorage) (ctx : Context) (s r : iban.IBAN) (x : ℚ) :
    (i.TransferFunds ctx s r x).2 = i ∨
      (i.TransferFunds ctx s r x).2 =
        ((i.WithdrawFunds ctx s x).2.DepositFunds ctx r x).2 := by
  cases hctx : ctx.Err with
  | some e => exact Or.inl (by rw [TransferFunds_done s r x hctx])
  | none =>
    rw [TransferFunds_live s r x hctx]
    cases hw : (i.WithdrawFunds ctx s x).1 with
    | none => exact Or.inr (by simp)
    | some e => exact Or.inl (by simp [WithdrawFunds_err hw])

theorem TransferFunds_frame (i : InMemoryStorage) (ctx : Context) (s r : iban.IBAN) (x : ℚ) :
    SameUpToBalances [s, r] i (i.TransferFunds ctx s r x).2 := by
  rcases TransferFunds_store i ctx s r x with h | h
  · rw [h]
    exact SameUpToBalances.refl _ _
  · rw [h]
    exact (WithdrawFunds_frame i ctx s x).trans (DepositFunds_frame _ ctx r x)

/-- The result of `TransferFundsJSON` on a payload that decodes. -/
theorem TransferFundsJSON_of_decoded {unmarshal : List UInt8 → Option transfer.Transfer}
    {payload : List UInt8} {t : transfer.Transfer} (i : InMemoryStorage) (ctx : Context)
    (ht : unmarshal payload = some t) :
    i.TransferFundsJSON unmarshal ctx payload =
      i.TransferFunds ctx t.SenderIBAN t.ReceiverIBAN t.Amount := by
  cases hctx : ctx.Err with
  | some e => simp [TransferFundsJSON, hctx, TransferFunds_done _ _ _ hctx]
  | none =>
    simp only [TransferFundsJSON, hctx, ht]
    rcases i.TransferFunds ctx t.SenderIBAN t.ReceiverIBAN t.Amount with ⟨_ | e, i1⟩ <;> rfl

/-- The result of `TransferFundsJSON` on a payload that does not decode. -/
theorem TransferFundsJSON_of_malformed {unmarshal : List UInt8 → Option transfer.Transfer}
    {payload : List UInt8} (i : InMemoryStorage) (ctx : Context)
    (ht : unmarshal payload = none) :
    i.TransferFundsJSON unmarshal ctx payload =
      (some (ctx.Err.getD Error.Unmarshal), i) := by
  cases hctx : ctx.Err with
  | some e => simp [TransferFundsJSON, hctx]
  | none => simp [TransferFundsJSON, hctx, ht]

theorem TransferFundsJSON_frame (unmarshal : List UInt8 → Option transfer.Transfer)
    (i : InMemoryStorage) (ctx : Context) (payload : List UInt8) :
    SameUpToBalances
      (match unmarshal payload with
        | some t => [t.SenderIBAN, t.ReceiverIBAN]
        | none => [])
      i (i.TransferFundsJSON unmarshal ctx payload).2 := by
  cases ht : unmarshal payload with
  | none =>
    rw [TransferFundsJSON_of_malformed i ctx ht]
    exact SameUpToBalances.refl _ _
  | some t =>
    rw [TransferFundsJSON_of_decoded i ctx ht]
    exact TransferFunds_frame i ctx _ _ _

/-- A transfer to an account that is stored but not Active: the withdrawal is
written, the deposit returns `AccountBlocked`, and nothing undoes the
withdrawal. -/
theorem TransferFunds_receiver_blocked {i : InMemoryStorage} {ctx : Context}
    {s r : iban.IBAN} {acc rAcc : Account} (x : ℚ) (hctx : ctx.Err = none)
    (hs : i.items.lookup s = some acc) (hst : acc.Status = Active) (hbal : x ≤ acc.Balance)
    (hr : i.items.lookup r = some rAcc) (hrst : rAcc.Status ≠ Active) :
    i.TransferFunds ctx s r x =
      (some Error.AccountBlocked,
        { items := i.items.insert s { acc with Balance := acc.Balance - x } }) := by
  have hne : r ≠ s := by
    rintro rfl
    rw [hs] at hr
    cases hr
    exact hrst hst
  have hw := WithdrawFunds_of_lookup x hctx hs hst hbal
  have hr1 : (i.WithdrawFunds ctx s x).2.items.lookup r = some rAcc := by
    rw [hw]
    simp only
    rw [Finmap.lookup_insert_of_ne _ hne]
    exact hr
  rw [TransferFunds_live s r x hctx, if_pos (by rw [hw]),
    DepositFunds_blocked x hctx hr1 hrst, hw]

/-- A transfer between two different accounts, both Active, that the sender's
balance covers: both entries are written. -/
theorem TransferFunds_of_lookup {i : InMemoryStorage} {ctx : Context}
    {s r : iban.IBAN} {acc rAcc : Account} (x : ℚ) (hctx : ctx.Err = none) (hne : s ≠ r)
    (hs : i.items.lookup s = some acc) (hst : acc.Status = Active) (hbal : x ≤ acc.Balance)
    (hr : i.items.lookup r = some rAcc) (hrst : rAcc.Status = Active) :
    i.TransferFunds ctx s r x =
      (none, { items := (Finmap.insert r { rAcc with Balance := rAcc.Balance + x }
        (Finmap.insert s { acc with Balance := acc.Balance - x } i.items)) }) := by
  have hw := WithdrawFunds_of_lookup x hctx hs hst hbal
  have hr1 : (i.WithdrawFunds ctx s x).2.items.lookup r = some rAcc := by
    rw [hw]
    simp only
    rw [Finmap.lookup_insert_of_ne _ (Ne.symm hne)]
    exact hr
  rw [TransferFunds_live s r x hctx, if_pos (by rw [hw]),
    DepositFunds_of_lookup x hctx hr1 hrst, hw]

/-! ### The slice of `GetAllAccounts` -/

/-- The loop with a variable for each iteration: every pointer keeps its own
account, and the loop's one variable is not touched. -/
theorem foldl_rangeStep_perIteration (l : List Account) :
    ∀ st : LoopState, (l.foldl (rangeStep LoopVar.PerIteration) st).v = st.v ∧
      (l.foldl (rangeStep LoopVar.PerIteration) st).accounts =
        st.accounts ++ l.map Ptr.own := by
  induction l with
  | nil => exact fun st => ⟨rfl, by simp⟩
  | cons a l ih =>
    intro st
    rw [List.foldl_cons]
    obtain ⟨h1, h2⟩ := ih (rangeStep LoopVar.PerIteration st a)
    exact ⟨h1, by rw [h2]; simp [rangeStep]⟩

/-- The loop with one variable: every pointer is to that variable, which ends
with the account visited last. -/
theorem foldl_rangeStep_perLoop (l : List Account) :
    ∀ st : LoopState, (l.foldl (rangeStep LoopVar.PerLoop) st).v =
        (l.getLast?.map some).getD st.v ∧
      (l.foldl (rangeStep LoopVar.PerLoop) st).accounts =
        st.accounts ++ List.replicate l.length Ptr.loop := by
  induction l with
  | nil => exact fun st => ⟨rfl, by simp⟩
  | cons a l ih =>
    intro st
    rw [List.foldl_cons]
    obtain ⟨h1, h2⟩ := ih (rangeStep LoopVar.PerLoop st a)
    refine ⟨?_, ?_⟩
    · rw [h1]
      cases l with
      | nil => rfl
      | cons b l =>
        rw [List.getLast?_eq_getLast _ (List.cons_ne_nil b l),
          List.getLast?_eq_getLast _ (List.cons_ne_nil a (b :: l))]
        rfl
    · rw [h2]
      simp [rangeStep, List.replicate_succ]

/-- With a variable for each iteration the slice is the accounts visited. -/
theorem rangeItems_perIteration (visited : List Account) :
    rangeItems LoopVar.PerIteration visited = visited := by
  obtain ⟨-, h2⟩ := foldl_rangeStep_perIteration visited { v := none, accounts := [] }
  have hown : ∀ (st : LoopState) (l : List Account),
      (l.map Ptr.own).filterMap (deref st) = l := by
    intro st l
    induction l with
    | nil => rfl
    | cons a l ih => simp [deref, ih]
  simp only [rangeItems, h2, List.nil_append]
  exact hown _ _

/-- With one loop variable the slice is the account visited last, once for
each account visited. -/
theorem rangeItems_perLoop (visited : List Account) :
    rangeItems LoopVar.PerLoop visited =
      (List.replicate visited.length visited.getLast?).filterMap id := by
  obtain ⟨h1, h2⟩ := foldl_rangeStep_perLoop visited { v := none, accounts := [] }
  have hloop : ∀ (st : LoopState) (n : Nat),
      (List.replicate n Ptr.loop).filterMap (deref st) =
        (List.replicate n st.v).filterMap id := by
    intro st n
    induction n with
    | zero => rfl
    | succ n ih =>
      rw [List.replicate_succ, List.replicate_succ, List.filterMap_cons, List.filterMap_cons,
        ih]
      rfl
  have hv : (visited.foldl (rangeStep LoopVar.PerLoop) { v := none, accounts := [] }).v =
      visited.getLast? := by
    rw [h1]
    cases visited.getLast? <;> rfl
  simp only [rangeItems, h2, List.nil_append]
  rw [hloop, hv]

/-- Visiting every stored key once, with a variable for each iteration, gives
for each stored key the account stored under it. -/
theorem GetAllAccounts_perIteration (i : InMemoryStorage) {ctx : Context}
    (hctx : ctx.Err = none) (order : List iban.IBAN)
    (horder : (order : Multiset iban.IBAN) = i.items.keys.val) :
    ∃ accounts : List Account,
      i.GetAllAccounts ctx LoopVar.PerIteration order = ((some accounts, none), i) ∧
        (accounts : Multiset Account).map some =
          i.items.keys.val.map fun k => i.items.lookup k := by
  have hmem : ∀ k ∈ order, (i.items.lookup k).isSome = true := by
    intro k hk
    have : k ∈ i.items.keys.val := by
      rw [← horder]
      exact Multiset.mem_coe.mpr hk
    exact Finmap.lookup_isSome.mpr (Finmap.mem_keys.mp this)
  have hmap : ∀ l : List iban.IBAN, (∀ k ∈ l, (i.items.lookup k).isSome = true) →
      (l.filterMap fun k => i.items.lookup k).map some = l.map fun k => i.items.lookup k := by
    intro l
    induction l with
    | nil => exact fun _ => rfl
    | cons k l ih =>
      intro h
      obtain ⟨a, ha⟩ := Option.isSome_iff_exists.mp (h k (List.mem_cons_self _ _))
      simp only [List.filterMap_cons, ha, List.map_cons]
      rw [ih fun j hj => h j (List.mem_cons_of_mem _ hj)]
  refine ⟨order.filterMap fun k => i.items.lookup k, ?_, ?_⟩
  · simp only [GetAllAccounts, hctx, rangeItems_perIteration]
  · rw [← horder]
    simp only [Multiset.map_coe]
    rw [hmap order hmem]

end InMemoryStorage

/-! ### Identifiers that were never added -/

/-- A call that is not an `AddAccount` for `id` does not store `id`. -/
theorem Call.exec_lookup_none (unmarshal : List UInt8 → Option transfer.Transfer)
    {i : InMemoryStorage} {id : iban.IBAN} (c : Call)
    (hc : ∀ ctx a, c = Call.AddAccount ctx a → a.IBAN ≠ id)
    (hi : i.items.lookup id = none) : (c.exec unmarshal i).items.lookup id = none := by
  cases c with
  | GetAccount ctx k =>
    have : (i.GetAccount ctx k).2 = i := by
      unfold InMemoryStorage.GetAccount
      split
      · rfl
      · split <;> rfl
    simp only [Call.exec, this, hi]
  | GetAllAccounts ctx loopVar order =>
    have : (i.GetAllAccounts ctx loopVar order).2 = i := by
      unfold InMemoryStorage.GetAllAccounts
      split <;> rfl
    simp only [Call.exec, this, hi]
  | AddAccount ctx a =>
    have hne : id ≠ a.IBAN := fun h => hc ctx a rfl h.symm
    simp only [Call.exec, InMemoryStorage.AddAccount]
    split
    · exact hi
    · simp only
      rw [Finmap.lookup_insert_of_ne _ hne]
      exact hi
  | DepositFunds ctx k x => exact (InMemoryStorage.DepositFunds_frame i ctx k x).lookup_eq_none hi
  | WithdrawFunds ctx k x =>
    exact (InMemoryStorage.WithdrawFunds_frame i ctx k x).lookup_eq_none hi
  | TransferFunds ctx s r x =>
    exact (InMemoryStorage.TransferFunds_frame i ctx s r x).lookup_eq_none hi
  | TransferFundsJSON ctx payload =>
    exact (InMemoryStorage.TransferFundsJSON_frame unmarshal i ctx payload).lookup_eq_none hi
  | BeginTransaction ctx => exact hi
  | Rollback ctx => exact hi
  | Commit ctx => exact hi

/-- A sequence of calls without an `AddAccount` for `id` does not store `id`. -/
theorem execAll_lookup_none (unmarshal : List UInt8 → Option transfer.Transfer)
    {id : iban.IBAN} (calls : List Call) :
    ∀ {i : InMemoryStorage}, (∀ ctx a, Call.AddAccount ctx a ∈ calls → a.IBAN ≠ id) →
      i.items.lookup id = none → (execAll unmarshal i calls).items.lookup id = none := by
  induction calls with
  | nil => exact fun _ hi => hi
  | cons c cs ih =>
    intro i hc hi
    rw [execAll, List.foldl_cons]
    exact ih (fun ctx a h => hc ctx a (List.mem_cons_of_mem _ h))
      (Call.exec_lookup_none unmarshal c
        (fun ctx a h => hc ctx a (h ▸ List.mem_cons_self _ _)) hi)

/-! ### The test store, looked up -/

theorem lookup_testAccountActive :
    createStorageWithTestAccounts.items.lookup testAccountActive.IBAN =
      some testAccountActive := by
  decide

theorem lookup_testAccountDisabled :
    createStorageWithTestAccounts.items.lookup testAccountDisabled.IBAN =
      some testAccountDisabled := by
  decide

theorem lookup_testAccountWithZeroBalance :
    createStorageWithTestAccounts.items.lookup testAccountWithZeroBalance.IBAN =
      some testAccountWithZeroBalance := by
  decide

theorem lookup_testiban :
    createStorageWithTestAccounts.items.lookup "testiban" = none := by
  decide

end storage

/-! ## The keys of the map -/

namespace storage

open entity

/-- Writing under `k` the value that is stored there changes nothing. -/
theorem insert_of_lookup {β : Type} {m : Finmap (fun _ : iban.IBAN => β)} {k : iban.IBAN}
    {a : β} (h : m.lookup k = some a) : m.insert k a = m := by
  apply Finmap.ext_lookup
  intro j
  by_cases hj : j = k
  · subst hj
    rw [Finmap.lookup_insert, h]
  · rw [Finmap.lookup_insert_of_ne _ hj]

/-- A call keeps every stored account under its own `IBAN`. -/
theorem Call.exec_keys (unmarshal : List UInt8 → Option transfer.Transfer)
    {i : InMemoryStorage} (c : Call)
    (hi : ∀ k a, i.items.lookup k = some a → a.IBAN = k) :
    ∀ k a, (c.exec unmarshal i).items.lookup k = some a → a.IBAN = k := by
  have hframe : ∀ {named : List iban.IBAN} {j : InMemoryStorage},
      SameUpToBalances named i j → ∀ k a, j.items.lookup k = some a → a.IBAN = k := by
    intro named j h k a hk
    have h1 := (h k).1
    rw [hk] at h1
    cases hik : i.items.lookup k with
    | none =>
      rw [hik] at h1
      cases h1
    | some a0 =>
      rw [hik] at h1
      have h2 : a.IBAN = a0.IBAN := by simpa using h1
      rw [h2]
      exact hi k a0 hik
  cases c with
  | GetAccount ctx k0 => exact @hframe [] _ (by
      have : (i.GetAccount ctx k0).2 = i := by
        unfold InMemoryStorage.GetAccount
        split
        · rfl
        · split <;> rfl
      rw [Call.exec, this]
      exact SameUpToBalances.refl _ _)
  | GetAllAccounts ctx loopVar order => exact @hframe [] _ (by
      have : (i.GetAllAccounts ctx loopVar order).2 = i := by
        unfold InMemoryStorage.GetAllAccounts
        split <;> rfl
      rw [Call.exec, this]
      exact SameUpToBalances.refl _ _)
  | AddAccount ctx a0 =>
    intro k a hk
    simp only [Call.exec, InMemoryStorage.AddAccount] at hk
    split at hk
    · exact hi k a hk
    · simp only at hk
      by_cases hka : k = a0.IBAN
      · subst hka
        rw [Finmap.lookup_insert] at hk
        cases hk
        rfl
      · rw [Finmap.lookup_insert_of_ne _ hka] at hk
        exact hi k a hk
  | DepositFunds ctx k0 x => exact hframe (InMemoryStorage.DepositFunds_frame i ctx k0 x)
  | WithdrawFunds ctx k0 x => exact hframe (InMemoryStorage.WithdrawFunds_frame i ctx k0 x)
  | TransferFunds ctx s0 r0 x =>
    exact hframe (InMemoryStorage.TransferFunds_frame i ctx s0 r0 x)
  | TransferFundsJSON ctx payload =>
    exact hframe (InMemoryStorage.TransferFundsJSON_frame unmarshal i ctx payload)
  | BeginTransaction ctx => exact hi
  | Rollback ctx => exact hi
  | Commit ctx => exact hi

/-- A sequence of calls keeps every stored account under its own `IBAN`. -/
theorem execAll_keys (unmarshal : List UInt8 → Option transfer.Transfer) (calls : List Call) :
    ∀ {i : InMemoryStorage}, (∀ k a, i.items.lookup k = some a → a.IBAN = k) →
      ∀ k a, (execAll unmarshal i calls).items.lookup k = some a → a.IBAN = k := by
  induction calls with
  | nil => exact fun hi => hi
  | cons c cs ih =>
    intro i hi
    rw [execAll, List.foldl_cons]
    exact ih (Call.exec_keys unmarshal c hi)

end storage

/-! ## The two stores, side by side -/

namespace storage

open entity

/-- Statuses that correspond are tested alike: `== Blocked` in `main.go` holds
exactly when `!= Active` in `pkg/storage` does. -/
theorem StatusCorr.blocked_iff {s : Int} {t : Status} (h : StatusCorr s t) :
    s = main.Blocked ↔ t ≠ Active := by
  rcases h with ⟨rfl, rfl⟩ | ⟨rfl, rfl⟩
  · constructor
    · intro h0
      exact absurd h0 (by decide)
    · intro h0
      exact absurd rfl h0
  · constructor
    · intro _
      decide
    · intro _
      rfl

theorem StoreCorr.empty : StoreCorr main.NewStorage NewStorage := by
  intro k
  simp [main.NewStorage, NewStorage, Finmap.lookup_empty, LookupCorr]

/-- Writing accounts that correspond under the same identifier in
corresponding stores. -/
theorem StoreCorr.insert {m : main.InMemoryStorage} {p : InMemoryStorage}
    (h : StoreCorr m p) (k : String) {a : main.Account} {b : Account}
    (hab : AccountCorr a b) :
    StoreCorr { items := m.items.insert k a } { items := p.items.insert k b } := by
  intro j
  by_cases hj : j = k
  · subst hj
    simp only [Finmap.lookup_insert]
    exact hab
  · simp only [Finmap.lookup_insert_of_ne _ hj]
    exact h j

/-- `DepositFunds` of the two stores on corresponding stores: the same case of
failure, and corresponding stores afterwards. -/
theorem DepositFunds_corr {m : main.InMemoryStorage} {p : InMemoryStorage} {ctx : Context}
    (hctx : ctx.Err = none) (h : StoreCorr m p) (k : String) (x : ℚ) :
    ErrorCorr (m.DepositFunds k x).1 (p.DepositFunds ctx k x).1 ∧
      StoreCorr (m.DepositFunds k x).2 (p.DepositFunds ctx k x).2 := by
  have hk := h k
  cases hm : m.items.lookup k with
  | none =>
    cases hp : p.items.lookup k with
    | none =>
      rw [InMemoryStorage.DepositFunds_not_found x hctx hp]
      simp only [main.InMemoryStorage.DepositFunds, hm]
      exact ⟨Or.inl ⟨rfl, rfl⟩, h⟩
    | some b =>
      rw [hm, hp] at hk
      exact absurd hk id
  | some a =>
    cases hp : p.items.lookup k with
    | none =>
      rw [hm, hp] at hk
      exact absurd hk id
    | some b =>
      rw [hm, hp] at hk
      obtain ⟨hI, hB, hS⟩ := hk
      by_cases hst : b.Status = Active
      · have hnb : ¬ a.Status = main.Blocked := fun h0 => (hS.blocked_iff.mp h0) hst
        rw [InMemoryStorage.DepositFunds_of_lookup x hctx hp hst]
        simp only [main.InMemoryStorage.DepositFunds, hm, hnb, if_false]
        exact ⟨trivial, h.insert k ⟨hI, by simp only [hB], hS⟩⟩
      · have hb : a.Status = main.Blocked := hS.blocked_iff.mpr hst
        rw [InMemoryStorage.DepositFunds_blocked x hctx hp hst]
        simp only [main.InMemoryStorage.DepositFunds, hm, hb, if_true]
        exact ⟨Or.inr (Or.inl ⟨rfl, rfl⟩), h⟩

/-- `WithdrawFunds` of the two stores on corresponding stores: the same case of
failure, and corresponding stores afterwards. -/
theorem WithdrawFunds_corr {m : main.InMemoryStorage} {p : InMemoryStorage} {ctx : Context}
    (hctx : ctx.Err = none) (h : StoreCorr m p) (k : String) (x : ℚ) :
    ErrorCorr (m.WithdrawFunds k x).1 (p.WithdrawFunds ctx k x).1 ∧
      StoreCorr (m.WithdrawFunds k x).2 (p.WithdrawFunds ctx k x).2 := by
  have hk := h k
  cases hm : m.items.lookup k with
  | none =>
    cases hp : p.items.lookup k with
    | none =>
      rw [InMemoryStorage.WithdrawFunds_not_found x hctx hp]
      simp only [main.InMemoryStorage.WithdrawFunds, hm]
      exact ⟨Or.inl ⟨rfl, rfl⟩, h⟩
    | some b =>
      rw [hm, hp] at hk
      exact absurd hk id
  | some a =>
    cases hp : p.items.lookup k with
    | none =>
      rw [hm, hp] at hk
      exact absurd hk id
    | some b =>
      rw [hm, hp] at hk
      obtain ⟨hI, hB, hS⟩ := hk
      by_cases hst : b.Status = Active
      · have hnb : ¬ a.Status = main.Blocked := fun h0 => (hS.blocked_iff.mp h0) hst
        by_cases hlt : b.Balance < x
        · rw [InMemoryStorage.WithdrawFunds_insufficient hctx hp hst hlt]
          simp only [main.InMemoryStorage.WithdrawFunds, hm, hnb, if_false, hB, hlt, if_true]
          exact ⟨Or.inr (Or.inr ⟨rfl, rfl⟩), h⟩
        · rw [InMemoryStorage.WithdrawFunds_of_lookup x hctx hp hst (not_lt.mp hlt)]
          simp only [main.InMemoryStorage.WithdrawFunds, hm, hnb, if_false, hB, hlt]
          exact ⟨trivial, h.insert k ⟨hI, rfl, hS⟩⟩
      · have hb : a.Status = main.Blocked := hS.blocked_iff.mpr hst
        rw [InMemoryStorage.WithdrawFunds_blocked x hctx hp hst]
        simp only [main.InMemoryStorage.WithdrawFunds, hm, hb, if_true]
        exact ⟨Or.inr (Or.inl ⟨rfl, rfl⟩), h⟩

/-- `TransferFunds` of `main.go` is the withdrawal followed, when it returned
nil, by the deposit on the store the withdrawal left. -/
theorem main_TransferFunds_eq (m : main.InMemoryStorage) (s r : String) (x : ℚ) :
    m.TransferFunds s r x =
      if (m.WithdrawFunds s x).1 = none then (m.WithdrawFunds s x).2.DepositFunds r x
      else m.WithdrawFunds s x := by
  unfold main.InMemoryStorage.TransferFunds
  rcases hw : m.WithdrawFunds s x with ⟨_ | e, m1⟩
  · rcases hd : m1.DepositFunds r x with ⟨_ | e, m2⟩ <;> simp [hd]
  · simp

/-- `TransferFunds` of the two stores on corresponding stores: the same case of
failure, and corresponding stores afterwards. -/
theorem TransferFunds_corr {m : main.InMemoryStorage} {p : InMemoryStorage} {ctx : Context}
    (hctx : ctx.Err = none) (h : StoreCorr m p) (s r : String) (x : ℚ) :
    ErrorCorr (m.TransferFunds s r x).1 (p.TransferFunds ctx s r x).1 ∧
      StoreCorr (m.TransferFunds s r x).2 (p.TransferFunds ctx s r x).2 := by
  obtain ⟨he, hs⟩ := WithdrawFunds_corr hctx h s x
  rw [main_TransferFunds_eq, InMemoryStorage.TransferFunds_live s r x hctx]
  cases hm : (m.WithdrawFunds s x).1 with
  | none =>
    cases hp : (p.WithdrawFunds ctx s x).1 with
    | none =>
      rw [if_pos rfl, if_pos rfl]
      exact DepositFunds_corr hctx hs r x
    | some e =>
      rw [hm, hp] at he
      exact absurd he id
  | some em =>
    cases hp : (p.WithdrawFunds ctx s x).1 with
    | none =>
      rw [hm, hp] at he
      exact absurd he id
    | some e =>
      rw [if_neg (by simp), if_neg (by simp)]
      exact ⟨by rw [hm, hp] at he; rw [hm, hp]; exact he, hs⟩

end storage

/-! ## Basic facts about `float64` -/

namespace Float64

theorem signed_not (t : Bool) (n : Nat) : signed (!t) n = -signed t n := by
  cases t <;> simp [signed]

theorem signed_false_nonneg (n : Nat) : 0 ≤ signed false n := by
  simp [signed]

/-- `a < a` is false for every value. -/
theorem lt_irrefl (a : Float64) : lt a a = false := by
  cases a with
  | NaN => rfl
  | Inf s => cases s <;> rfl
  | Finite s m e => simp [lt]

/-- `a <= b` excludes `b < a`. -/
theorem lt_eq_false_of_le {a b : Float64} (h : le a b = true) : lt b a = false := by
  cases a with
  | NaN => simp [le] at h
  | Inf s =>
    cases b with
    | NaN => simp [le] at h
    | Inf t =>
      cases s <;> cases t <;> simp [le] at h <;> rfl
    | Finite t n f =>
      simp only [le] at h
      subst h
      rfl
  | Finite s m e =>
    cases b with
    | NaN => simp [le] at h
    | Inf t =>
      simp only [le, Bool.not_eq_true'] at h
      subst h
      rfl
    | Finite t n f =>
      simp only [le, decide_eq_true_eq] at h
      simp only [lt, decide_eq_false_iff_not, not_lt]
      rw [min_comm f e]
      exact h

/-- A rounded value keeps the sign it was given. -/
theorem round_sign (neg : Bool) (M : Nat) (E : Int) :
    round neg M E = Inf neg ∨ ∃ m e, round neg M E = Finite neg m e := by
  have hov : ∀ (m : Nat) (e : Int),
      overflow neg m e = Inf neg ∨ ∃ m1 e1, overflow neg m e = Finite neg m1 e1 := by
    intro m e
    unfold overflow
    split
    · exact Or.inl rfl
    · exact Or.inr ⟨m, e, rfl⟩
  unfold round
  split
  · exact Or.inr ⟨0, -1074, rfl⟩
  · simp only
    repeat' split
    all_goals exact hov _ _

/-- A value with the sign bit clear, a zero, or a NaN, is not below zero. -/
theorem lt_zero_of_sign {r : Float64}
    (h : r = NaN ∨ r = Inf false ∨ (∃ m e, r = Finite false m e) ∨ ∃ s e, r = Finite s 0 e) :
    lt r zero = false := by
  rcases h with rfl | rfl | ⟨m, e, rfl⟩ | ⟨s, e, rfl⟩
  · rfl
  · rfl
  · simp only [lt, zero, signed, Bool.false_eq_true, if_false, Nat.zero_mul,
      decide_eq_false_iff_not, not_lt]
    exact_mod_cast Nat.zero_le _
  · cases s <;> simp [lt, zero, signed]

/-- A subtraction that passed the test `a < b` does not give a value below
zero: the result is not negative, or it is a NaN. -/
theorem sub_not_negative {a b : Float64} (h : lt a b = false) : lt (sub a b) zero = false := by
  apply lt_zero_of_sign
  cases a with
  | NaN => exact Or.inl (by cases b <;> rfl)
  | Inf s =>
    cases b with
    | NaN => exact Or.inl rfl
    | Inf t =>
      cases s <;> cases t <;> simp [lt] at h <;> simp [sub, neg, add]
    | Finite t n f =>
      simp only [lt] at h
      subst h
      exact Or.inr (Or.inl rfl)
  | Finite s m e =>
    cases b with
    | NaN => exact Or.inl rfl
    | Inf t =>
      simp only [lt, Bool.not_eq_false'] at h
      subst h
      exact Or.inr (Or.inl rfl)
    | Finite t n f =>
      simp only [lt, decide_eq_false_iff_not, not_lt] at h
      simp only [sub, neg, add, signed_not]
      split
      · exact Or.inr (Or.inr (Or.inr ⟨_, _, rfl⟩))
      · have hneg : decide (signed s (m * 2 ^ (e - min e f).toNat) +
            -signed t (n * 2 ^ (f - min e f).toNat) < 0) = false := by
          simp only [decide_eq_false_iff_not, not_lt]
          omega
        rw [hneg]
        rcases round_sign false
          (signed s (m * 2 ^ (e - min e f).toNat) +
            -signed t (n * 2 ^ (f - min e f).toNat)).natAbs (min e f) with h1 | h1
        · exact Or.inr (Or.inl h1)
        · exact Or.inr (Or.inr (Or.inl h1))

/-- A value that is not below zero and is not a NaN is at least zero. -/
theorem le_zero_of_not_lt {r : Float64} (h : lt r zero = false) (hn : r ≠ NaN) :
    le zero r = true := by
  cases r with
  | NaN => exact absurd rfl hn
  | Inf s =>
    simp only [lt, zero] at h
    subst h
    rfl
  | Finite s m e =>
    simp only [lt, zero, decide_eq_false_iff_not, not_lt] at h
    simp only [le, zero, decide_eq_true_eq]
    rw [min_comm (-1074) e]
    exact h

/-- A finite value minus itself is `+0`. -/
theorem sub_self_finite (s : Bool) (m : Nat) (e : Int) :
    sub (Finite s m e) (Finite s m e) = zero := by
  simp [sub, neg, add, signed_not, zero]

/-- Where neither value is a NaN, the test `a < b` fails exactly when
`b <= a`. -/
theorem le_of_lt_eq_false {a b : Float64} (ha : a ≠ NaN) (hb : b ≠ NaN)
    (h : lt a b = false) : le b a = true := by
  cases a with
  | NaN => exact absurd rfl ha
  | Inf s =>
    cases b with
    | NaN => exact absurd rfl hb
    | Inf t => cases s <;> cases t <;> simp [lt] at h <;> rfl
    | Finite t n f =>
      simp only [lt] at h
      subst h
      rfl
  | Finite s m e =>
    cases b with
    | NaN => exact absurd rfl hb
    | Inf t =>
      simp only [lt, Bool.not_eq_false'] at h
      subst h
      rfl
    | Finite t n f =>
      simp only [lt, decide_eq_false_iff_not, not_lt] at h
      simp only [le, decide_eq_true_eq]
      rw [min_comm f e]
      exact h

/-- Rounding does not give a NaN. -/
theorem round_ne_NaN (neg : Bool) (M : Nat) (E : Int) : round neg M E ≠ NaN := by
  rcases round_sign neg M E with h | ⟨m, e, h⟩ <;> rw [h] <;> exact fun h1 => by cases h1

/-- A difference is a NaN only if an operand is one or both are the same
infinity. -/
theorem sub_ne_NaN {a b : Float64} (ha : a ≠ NaN) (hb : b ≠ NaN)
    (hinf : ∀ s, ¬(a = Inf s ∧ b = Inf s)) : sub a b ≠ NaN := by
  cases a with
  | NaN => exact absurd rfl ha
  | Inf s =>
    cases b with
    | NaN => exact absurd rfl hb
    | Inf t =>
      have hst : s ≠ t := fun h => hinf s ⟨rfl, by rw [h]⟩
      cases s <;> cases t <;> simp [sub, neg, add] at hst ⊢
    | Finite t n f => simp [sub, neg, add]
  | Finite s m e =>
    cases b with
    | NaN => exact absurd rfl hb
    | Inf t => simp [sub, neg, add]
    | Finite t n f =>
      simp only [sub, neg, add]
      split
      · exact fun h1 => by cases h1
      · exact round_ne_NaN _ _ _

/-! ### Known values of the arithmetic of `float64` -/

set_option maxRecDepth 20000 in
/-- In `float64`, `0.1 + 0.2` is `0.30000000000000004`, the value next above
`0.3`, which is `5404319552844595 * 2^-54`. -/
theorem point_one_add_point_two :
    add (Finite false 7205759403792794 (-56)) (Finite false 7205759403792794 (-55)) =
      Finite false 5404319552844596 (-54) := by
  decide

set_option maxRecDepth 20000 in
/-- In `float64`, `(0.11 - 0.04) + 0.04` is `0.11000000000000001`, the value
next above `0.11`, which is `7926335344172073 * 2^-56`. -/
theorem sub_add_not_cancel :
    add (sub (Finite false 7926335344172073 (-56)) (Finite false 5764607523034235 (-57)))
        (Finite false 5764607523034235 (-57)) =
      Finite false 7926335344172074 (-56) := by
  decide

set_option maxRecDepth 20000 in
/-- In `float64`, `1e16 - 1` is `1e16`. -/
theorem ten_pow_sixteen_sub_one :
    sub (ofNat 10000000000000000) (ofNat 1) = ofNat 10000000000000000 := by
  decide

end Float64

/-! ## Basic facts about the operations on `float64` amounts -/

namespace binary64

open entity Float64

namespace InMemoryStorage

theorem WithdrawFunds_of_lookup_f64 {i : InMemoryStorage} {ctx : Context} {k : iban.IBAN}
    {acc : Account} {amount : Float64} (hctx : ctx.Err = none)
    (hk : i.items.lookup k = some acc) (hst : acc.Status = Active)
    (hlt : acc.Balance.lt amount = false) :
    i.WithdrawFunds ctx k amount =
      (none, { items := i.items.insert k { acc with Balance := acc.Balance.sub amount } }) := by
  simp [WithdrawFunds, hctx, hk, hst, hlt]

theorem WithdrawFunds_not_found_f64 {i : InMemoryStorage} {ctx : Context} {k : iban.IBAN}
    (amount : Float64) (hctx : ctx.Err = none) (hk : i.items.lookup k = none) :
    i.WithdrawFunds ctx k amount = (some Error.AccountNotFound, i) := by
  simp [WithdrawFunds, hctx, hk]

theorem WithdrawFunds_blocked_f64 {i : InMemoryStorage} {ctx : Context} {k : iban.IBAN}
    {acc : Account} (amount : Float64) (hctx : ctx.Err = none)
    (hk : i.items.lookup k = some acc) (hst : acc.Status ≠ Active) :
    i.WithdrawFunds ctx k amount = (some Error.AccountBlocked, i) := by
  simp [WithdrawFunds, hctx, hk, hst]

theorem WithdrawFunds_insufficient_f64 {i : InMemoryStorage} {ctx : Context} {k : iban.IBAN}
    {acc : Account} {amount : Float64} (hctx : ctx.Err = none)
    (hk : i.items.lookup k = some acc) (hst : acc.Status = Active)
    (hlt : acc.Balance.lt amount = true) :
    i.WithdrawFunds ctx k amount = (some Error.InsufficientFunds, i) := by
  simp [WithdrawFunds, hctx, hk, hst, hlt]

theorem DepositFunds_of_lookup_f64 {i : InMemoryStorage} {ctx : Context} {k : iban.IBAN}
    {acc : Account} (amount : Float64) (hctx : ctx.Err = none)
    (hk : i.items.lookup k = some acc) (hst : acc.Status = Active) :
    i.DepositFunds ctx k amount =
      (none, { items := i.items.insert k { acc with Balance := acc.Balance.add amount } }) := by
  simp [DepositFunds, hctx, hk, hst]

/-- A withdrawal that returns nil found an Active account whose balance was not
below the amount and stored it back with the amount subtracted. -/
theorem WithdrawFunds_ok_inv_f64 {i : InMemoryStorage} {ctx : Context} {k : iban.IBAN}
    {amount : Float64} (h : (i.WithdrawFunds ctx k amount).1 = none) :
    ∃ acc, ctx.Err = none ∧ i.items.lookup k = some acc ∧ acc.Status = Active ∧
      acc.Balance.lt amount = false ∧
      (i.WithdrawFunds ctx k amount).2 =
        { items := i.items.insert k { acc with Balance := acc.Balance.sub amount } } := by
  cases hctx : ctx.Err with
  | some e => simp [WithdrawFunds, hctx] at h
  | none =>
    cases hk : i.items.lookup k with
    | none => simp [WithdrawFunds, hctx, hk] at h
    | some acc =>
      by_cases hst : acc.Status = Active
      · cases hlt : acc.Balance.lt amount with
        | true => simp [WithdrawFunds, hctx, hk, hst, hlt] at h
        | false =>
          exact ⟨acc, rfl, rfl, hst, hlt, by rw [WithdrawFunds_of_lookup_f64 hctx hk hst hlt]⟩
      · simp [WithdrawFunds, hctx, hk, hst] at h

/-- A deposit that returns nil found an Active account and stored it back with
the amount added. -/
theorem DepositFunds_ok_inv_f64 {i : InMemoryStorage} {ctx : Context} {k : iban.IBAN}
    {amount : Float64} (h : (i.DepositFunds ctx k amount).1 = none) :
    ∃ acc, ctx.Err = none ∧ i.items.lookup k = some acc ∧ acc.Status = Active ∧
      (i.DepositFunds ctx k amount).2 =
        { items := i.items.insert k { acc with Balance := acc.Balance.add amount } } := by
  cases hctx : ctx.Err with
  | some e => simp [DepositFunds, hctx] at h
  | none =>
    cases hk : i.items.lookup k with
    | none => simp [DepositFunds, hctx, hk] at h
    | some acc =>
      by_cases hst : acc.Status = Active
      · exact ⟨acc, rfl, rfl, hst, by rw [DepositFunds_of_lookup_f64 amount hctx hk hst]⟩
      · simp [DepositFunds, hctx, hk, hst] at h

theorem TransferFunds_live_f64 {i : InMemoryStorage} {ctx : Context} (s r : iban.IBAN)
    (amount : Float64) (hctx : ctx.Err = none) :
    i.TransferFunds ctx s r amount =
      if (i.WithdrawFunds ctx s amount).1 = none then
        (i.WithdrawFunds ctx s amount).2.DepositFunds ctx r amount
      else i.WithdrawFunds ctx s amount := by
  unfold TransferFunds
  simp only [hctx, BeginTransaction, Rollback, Commit]
  rcases hw : i.WithdrawFunds ctx s amount with ⟨_ | e, i1⟩
  · rcases hd : i1.DepositFunds ctx r amount with ⟨_ | e, i2⟩ <;> simp [hd]
  · simp

theorem TransferFunds_done_f64 {i : InMemoryStorage} {ctx : Context} {e : Error}
    (s r : iban.IBAN) (amount : Float64) (hctx : ctx.Err = some e) :
    i.TransferFunds ctx s r amount = (some e, i) := by
  simp [TransferFunds, hctx]

/-- A transfer from an account to itself: the withdrawal and then the deposit
both write the one entry. -/
theorem TransferFunds_self_f64 {i : InMemoryStorage} {ctx : Context} {k : iban.IBAN}
    {acc : Account} {x : Float64} (hctx : ctx.Err = none) (hk : i.items.lookup k = some acc)
    (hst : acc.Status = Active) (hlt : acc.Balance.lt x = false) :
    i.TransferFunds ctx k k x =
      (none,
        { items := i.items.insert k { acc with Balance := (acc.Balance.sub x).add x } }) := by
  have hw := WithdrawFunds_of_lookup_f64 hctx hk hst hlt
  have hk1 : (i.WithdrawFunds ctx k x).2.items.lookup k
      = some { acc with Balance := acc.Balance.sub x } := by
    rw [hw]
    exact Finmap.lookup_insert _
  have hd := DepositFunds_of_lookup_f64 x hctx hk1 hst
  rw [TransferFunds_live_f64 k k x hctx, if_pos (by rw [hw]), hd, hw]
  simp [Finmap.insert_insert]

/-- A transfer between two different accounts, both Active, with a sender's
balance that is not below the amount: both entries are written. -/
theorem TransferFunds_of_lookup_f64 {i : InMemoryStorage} {ctx : Context}
    {s r : iban.IBAN} {acc rAcc : Account} {x : Float64} (hctx : ctx.Err = none)
    (hne : s ≠ r) (hs : i.items.lookup s = some acc) (hst : acc.Status = Active)
    (hlt : acc.Balance.lt x = false)
    (hr : i.items.lookup r = some rAcc) (hrst : rAcc.Status = Active) :
    i.TransferFunds ctx s r x =
      (none, { items := (Finmap.insert r { rAcc with Balance := rAcc.Balance.add x }
        (Finmap.insert s { acc with Balance := acc.Balance.sub x } i.items)) }) := by
  have hw := WithdrawFunds_of_lookup_f64 hctx hs hst hlt
  have hr1 : (i.WithdrawFunds ctx s x).2.items.lookup r = some rAcc := by
    rw [hw]
    simp only
    rw [Finmap.lookup_insert_of_ne _ (Ne.symm hne)]
    exact hr
  rw [TransferFunds_live_f64 s r x hctx, if_pos (by rw [hw]),
    DepositFunds_of_lookup_f64 x hctx hr1 hrst, hw]

end InMemoryStorage

open InMemoryStorage

/-- Writing a new account over a stored one changes the sum of all balances by
the difference of the numbers the two balances stand for. -/
theorem totalBalance_insert_of_lookup_f64 {i : InMemoryStorage} {k : iban.IBAN}
    {acc : Account} (acc' : Account) (hk : i.items.lookup k = some acc) :
    totalBalance { items := i.items.insert k acc' } =
      totalBalance i - acc.Balance.toRat?.getD 0 + acc'.Balance.toRat?.getD 0 := by
  have hmem : k ∈ i.items.keys := Finmap.mem_keys.mpr (Finmap.mem_of_lookup_eq_some hk)
  have hkeys : (i.items.insert k acc').keys = i.items.keys := by
    ext j
    simp only [Finmap.mem_keys, Finmap.mem_insert]
    constructor
    · rintro (rfl | h)
      · exact Finmap.mem_keys.mp hmem
      · exact h
    · exact fun h => Or.inr h
  unfold totalBalance
  simp only [hkeys]
  rw [← Finset.add_sum_erase _ _ hmem, ← Finset.add_sum_erase i.items.keys _ hmem]
  have hrest : ∑ j in i.items.keys.erase k,
      (((i.items.insert k acc').lookup j).bind fun a => a.Balance.toRat?).getD 0 =
      ∑ j in i.items.keys.erase k,
        ((i.items.lookup j).bind fun a => a.Balance.toRat?).getD 0 := by
    refine Finset.sum_congr rfl fun j hj => ?_
    rw [Finmap.lookup_insert_of_ne _ (Finset.ne_of_mem_erase hj)]
  rw [hrest, Finmap.lookup_insert, hk]
  simp only [Option.some_bind]
  ring

/-- The total after a successful transfer: the sender's balance is replaced by
the difference `float64` computes and the receiver's by the sum it computes.
`rAcc` is the receiver's account as the deposit finds it. -/
theorem TransferFunds_total_f64 {i : InMemoryStorage} {ctx : Context} {s r : iban.IBAN}
    {x : Float64} {sAcc rAcc : Account} (h : (i.TransferFunds ctx s r x).1 = none)
    (hs : i.items.lookup s = some sAcc)
    (hr : (i.WithdrawFunds ctx s x).2.items.lookup r = some rAcc) :
    totalBalance (i.TransferFunds ctx s r x).2 =
      totalBalance i - sAcc.Balance.toRat?.getD 0 + (sAcc.Balance.sub x).toRat?.getD 0
        - rAcc.Balance.toRat?.getD 0 + (rAcc.Balance.add x).toRat?.getD 0 := by
  cases hctx : ctx.Err with
  | some e =>
    rw [TransferFunds_done_f64 s r x hctx] at h
    cases h
  | none =>
    rw [TransferFunds_live_f64 s r x hctx] at h ⊢
    by_cases hw : (i.WithdrawFunds ctx s x).1 = none
    · rw [if_pos hw] at h ⊢
      obtain ⟨a, -, ha, -, -, hw2⟩ := WithdrawFunds_ok_inv_f64 hw
      obtain ⟨b, -, hb, -, hd2⟩ := DepositFunds_ok_inv_f64 h
      rw [hs] at ha
      cases ha
      rw [hr] at hb
      cases hb
      rw [hd2, totalBalance_insert_of_lookup_f64 _ hr, hw2,
        totalBalance_insert_of_lookup_f64 _ hs]
    · rw [if_neg hw] at h
      exact absurd h hw

/-! ### The stores of the examples, looked up and computed -/

theorem lookup_testAccountActive_f64 :
    createStorageWithTestAccounts.items.lookup testAccountActive.IBAN =
      some testAccountActive := by
  decide

theorem lookup_largeAccount_f64 :
    largeStorage.items.lookup largeAccount.IBAN = some largeAccount := by
  decide

theorem lookup_zero_in_large_f64 :
    largeStorage.items.lookup testAccountWithZeroBalance.IBAN =
      some testAccountWithZeroBalance := by
  decide

theorem ofNat_100 : ofNat 100 = Finite false 7036874417766400 (-46) := by
  decide

theorem ofNat_50 : ofNat 50 = Finite false 7036874417766400 (-47) := by
  decide

theorem ofNat_0 : ofNat 0 = Finite false 0 (-1074) := by
  decide

theorem ofNat_1 : ofNat 1 = Finite false 4503599627370496 (-52) := by
  decide

set_option maxRecDepth 20000 in
theorem ofNat_large : ofNat 9007199254740994 = Finite false 4503599627370497 1 := by
  decide

set_option maxRecDepth 20000 in
theorem ofNat_large_below : ofNat 9007199254740992 = Finite false 4503599627370496 1 := by
  decide

set_option maxRecDepth 20000 in
/-- In `float64`, `9007199254740994 - 1` is `9007199254740992`: the exact
difference lies half way between two values and goes to the even one. -/
theorem large_sub_one : (ofNat 9007199254740994).sub (ofNat 1) = ofNat 9007199254740992 := by
  rw [ofNat_large, ofNat_1, ofNat_large_below]
  decide

set_option maxRecDepth 20000 in
/-- In `float64`, `9007199254740992 + 1` is `9007199254740992`. -/
theorem large_below_add_one :
    (ofNat 9007199254740992).add (ofNat 1) = ofNat 9007199254740992 := by
  rw [ofNat_1, ofNat_large_below]
  decide

theorem toRat_ofNat_large : (ofNat 9007199254740994).toRat? = some 9007199254740994 := by
  rw [ofNat_large]
  norm_num [toRat?, signed]

theorem toRat_ofNat_large_below :
    (ofNat 9007199254740992).toRat? = some 9007199254740992 := by
  rw [ofNat_large_below]
  norm_num [toRat?, signed]

theorem toRat_ofNat_0 : (ofNat 0).toRat? = some 0 := by
  rw [ofNat_0]
  norm_num [toRat?, signed]

theorem toRat_ofNat_1 : (ofNat 1).toRat? = some 1 := by
  rw [ofNat_1]
  norm_num [toRat?, signed]

theorem toRat_ofNat_100 : (ofNat 100).toRat? = some 100 := by
  rw [ofNat_100]
  norm_num [toRat?, signed]

theorem lookup_testAccountWithZeroBalance_f64 :
    createStorageWithTestAccounts.items.lookup testAccountWithZeroBalance.IBAN =
      some testAccountWithZeroBalance := by
  decide

set_option exponentiation.threshold 2000 in
set_option maxRecDepth 20000 in
/-- In `float64`, `9007199254740994 + 0` is `9007199254740994`. -/
theorem large_add_zero :
    (ofNat 9007199254740994).add (ofNat 0) = ofNat 9007199254740994 := by
  rw [ofNat_large, ofNat_0]
  decide

set_option maxRecDepth 20000 in
/-- The values `9007199254740992` and `9007199254740994` of `float64` differ. -/
theorem large_below_ne_large : ofNat 9007199254740992 ≠ ofNat 9007199254740994 := by
  rw [ofNat_large, ofNat_large_below]
  decide

set_option exponentiation.threshold 2000 in
set_option maxRecDepth 20000 in
theorem zero_add_one : (ofNat 0).add (ofNat 1) = ofNat 1 := by
  decide

set_option exponentiation.threshold 2000 in
set_option maxRecDepth 20000 in
theorem zero_lt_hundred : (ofNat 0).lt (ofNat 100) = true := by
  decide

theorem hundred_sub_hundred : (ofNat 100).sub (ofNat 100) = ofNat 0 := by
  decide

set_option exponentiation.threshold 2000 in
set_option maxRecDepth 20000 in
theorem zero_add_hundred : (ofNat 0).add (ofNat 100) = ofNat 100 := by
  decide

theorem hundred_sub_fifty : (ofNat 100).sub (ofNat 50) = ofNat 50 := by
  decide

theorem fifty_add_fifty : (ofNat 50).add (ofNat 50) = ofNat 100 := by
  decide

end binary64

/-! ## Basic facts about `GenerateIBAN` -/

namespace iban

/-- A character up to 127 is one byte of UTF-8. -/
theorem utf8Size_of_le (c : Char) (h : c.val ≤ 127) : c.utf8Size = 1 := by
  simp [Char.utf8Size, h]

theorem utf8Size_of_isDigit (c : Char) (h : c.isDigit = true) : c.utf8Size = 1 := by
  simp only [Char.isDigit, Bool.and_eq_true, decide_eq_true_eq] at h
  exact utf8Size_of_le c (UInt32.le_trans h.2 (by decide))

theorem utf8Size_of_isUpper (c : Char) (h : c.isUpper = true) : c.utf8Size = 1 := by
  simp only [Char.isUpper, Bool.and_eq_true, decide_eq_true_eq] at h
  exact utf8Size_of_le c (UInt32.le_trans h.2 (by decide))

/-- A list of one-byte characters is as many bytes long as it has characters. -/
theorem utf8Len_of_ascii (l : List Char) (h : ∀ c ∈ l, c.utf8Size = 1) :
    String.utf8Len l = l.length := by
  induction l with
  | nil => rfl
  | cons c cs ih =>
    rw [String.utf8Len_cons, h c (List.mem_cons_self _ _),
      ih fun d hd => h d (List.mem_cons_of_mem _ hd), List.length_cons]

theorem Source.Intn_lt (s : Source) {n : Nat} (hn : 0 < n) : (s.Intn n).1 < n :=
  Nat.mod_lt _ hn

/-- `%02d` of a number below 100 is two decimal digits. -/
theorem Sprintf02d_digits {n : Nat} (hn : n < 100) :
    (Sprintf02d n).data.length = 2 ∧ ∀ c ∈ (Sprintf02d n).data, c.isDigit = true := by
  have h : ∀ m : Fin 100, (Sprintf02d m.val).data.length = 2 ∧
      (Sprintf02d m.val).data.all Char.isDigit = true := by decide
  obtain ⟨h1, h2⟩ := h ⟨n, hn⟩
  exact ⟨h1, fun c hc => List.all_eq_true.mp h2 c hc⟩

/-- `%d` of a number below 10 is one decimal digit. -/
theorem Sprintfd_digit {n : Nat} (hn : n < 10) :
    (Sprintfd n).data.length = 1 ∧ ∀ c ∈ (Sprintfd n).data, c.isDigit = true := by
  have h : ∀ m : Fin 10, (Sprintfd m.val).data.length = 1 ∧
      (Sprintfd m.val).data.all Char.isDigit = true := by decide
  obtain ⟨h1, h2⟩ := h ⟨n, hn⟩
  exact ⟨h1, fun c hc => List.all_eq_true.mp h2 c hc⟩

/-- The rune `A + k` for `k` below 26 is an uppercase letter. -/
theorem isUpper_A_add {k : Nat} (hk : k < 26) : (Char.ofNat ('A'.toNat + k)).isUpper = true := by
  have h : ∀ m : Fin 26, (Char.ofNat ('A'.toNat + m.val)).isUpper = true := by decide
  exact h ⟨k, hk⟩

/-- The first loop appends one uppercase letter in each iteration. -/
theorem bankCodeLoop_data (n : Nat) :
    ∀ (bankCode : String) (s : Source), ∃ l : List Char,
      l.length = n ∧ (∀ c ∈ l, c.isUpper = true) ∧
        (bankCodeLoop n bankCode s).1.data = bankCode.data ++ l := by
  induction n with
  | zero =>
    exact fun bankCode s =>
      ⟨[], rfl, fun c hc => absurd hc (List.not_mem_nil c), by simp [bankCodeLoop]⟩
  | succ n ih =>
    intro bankCode s
    obtain ⟨l, hlen, hup, hdata⟩ :=
      ih (bankCode ++ String.singleton (Char.ofNat ('A'.toNat + (s.Intn 26).1))) (s.Intn 26).2
    refine ⟨Char.ofNat ('A'.toNat + (s.Intn 26).1) :: l, by simp [hlen], ?_, ?_⟩
    · intro c hc
      rcases List.mem_cons.mp hc with rfl | hc
      · exact isUpper_A_add (Source.Intn_lt s (by decide))
      · exact hup c hc
    · rw [bankCodeLoop]
      simp only
      rw [hdata]
      simp [String.singleton]

/-- The second loop appends one decimal digit in each iteration. -/
theorem accountNumberLoop_data (n : Nat) :
    ∀ (accountNumber : String) (s : Source), ∃ l : List Char,
      l.length = n ∧ (∀ c ∈ l, c.isDigit = true) ∧
        (accountNumberLoop n accountNumber s).1.data = accountNumber.data ++ l := by
  induction n with
  | zero =>
    exact fun accountNumber s =>
      ⟨[], rfl, fun c hc => absurd hc (List.not_mem_nil c), by simp [accountNumberLoop]⟩
  | succ n ih =>
    intro accountNumber s
    obtain ⟨l, hlen, hdig, hdata⟩ :=
      ih (accountNumber ++ Sprintfd (s.Intn 10).1) (s.Intn 10).2
    obtain ⟨h1, h2⟩ := Sprintfd_digit (Source.Intn_lt s (show 0 < 10 by decide))
    refine ⟨(Sprintfd (s.Intn 10).1).data ++ l, by simp [hlen, h1, Nat.add_comm], ?_, ?_⟩
    · intro c hc
      rcases List.mem_append.mp hc with hc | hc
      · exact h2 c hc
      · exact hdig c hc
    · rw [accountNumberLoop]
      simp only
      rw [hdata]
      simp

end iban

/-! ## The claims -/

namespace storage

open entity InMemoryStorage

/-- C2, the code at the failing input: on the test store a transfer of 100
from `testAccountActive` (balance 100) to the identifier `testiban`, which is
not stored, returns `AccountNotFound`, and the sender's balance, 100 before
the call, is 0 after it: the withdrawal stays although the deposit failed. -/
theorem transferFunds_not_atomic :
    balanceOf createStorageWithTestAccounts testAccountActive.IBAN = some 100 ∧
      (createStorageWithTestAccounts.TransferFunds Context.Background
        testAccountActive.IBAN "testiban" 100).1 = some Error.AccountNotFound ∧
      balanceOf (createStorageWithTestAccounts.TransferFunds Context.Background
        testAccountActive.IBAN "testiban" 100).2 testAccountActive.IBAN = some 0 := by
  have ht := TransferFunds_receiver_not_found 100 (show Context.Background.Err = none from rfl)
    lookup_testAccountActive rfl (le_of_eq rfl) lookup_testiban
  refine ⟨?_, by rw [ht], ?_⟩
  · rw [balanceOf, lookup_testAccountActive]
    rfl
  · rw [ht]
    simp [balanceOf, Finmap.lookup_insert, testAccountActive]

/-- C4, as amended: for a stored account and an amount above its balance, a
withdrawal under a live context fails and leaves the whole store as it was;
the error is `InsufficientFunds` when the account is Active and
`AccountBlocked` when it is not, the status being tested first. -/
theorem withdrawFunds_over_balance (i : InMemoryStorage) (ctx : Context) (k : iban.IBAN)
    (x : ℚ) (acc : Account) (hctx : ctx.Err = none) (hk : i.items.lookup k = some acc)
    (hx : acc.Balance < x) :
    i.WithdrawFunds ctx k x =
      (some (if acc.Status = Active then Error.InsufficientFunds else Error.AccountBlocked),
        i) := by
  by_cases hst : acc.Status = Active
  · rw [if_pos hst]
    exact WithdrawFunds_insufficient hctx hk hst hx
  · rw [if_neg hst]
    exact WithdrawFunds_blocked x hctx hk hst

/-- The amended C4 on the test store: 100 from `testAccountWithZeroBalance`,
as in `TestInMemoryStorage_WithdrawFunds_InsufficientFunds`. -/
theorem withdrawFunds_over_balance_witness :
    createStorageWithTestAccounts.WithdrawFunds Context.Background
        testAccountWithZeroBalance.IBAN 100 =
      (some Error.InsufficientFunds, createStorageWithTestAccounts) :=
  withdrawFunds_over_balance createStorageWithTestAccounts Context.Background
    testAccountWithZeroBalance.IBAN 100 testAccountWithZeroBalance rfl
    lookup_testAccountWithZeroBalance (by norm_num [testAccountWithZeroBalance])

/-- C4 as stated fails for an account that is not Active: on the test store
`testAccountDisabled` is stored with balance 100 < 200, and withdrawing 200 from
it returns `AccountBlocked`, not `InsufficientFunds`. -/
theorem withdrawFunds_over_balance_counterexample :
    createStorageWithTestAccounts.items.lookup testAccountDisabled.IBAN
        = some testAccountDisabled ∧
      testAccountDisabled.Balance < 200 ∧
      (createStorageWithTestAccounts.WithdrawFunds Context.Background
        testAccountDisabled.IBAN 200).1 = some Error.AccountBlocked ∧
      (createStorageWithTestAccounts.WithdrawFunds Context.Background
        testAccountDisabled.IBAN 200).1 ≠ some Error.InsufficientFunds := by
  have hw := WithdrawFunds_blocked 200 (show Context.Background.Err = none from rfl)
    lookup_testAccountDisabled (by decide)
  refine ⟨lookup_testAccountDisabled, by norm_num [testAccountDisabled], by rw [hw], ?_⟩
  rw [hw]
  decide

/-- C5: for a stored account whose status is Disabled, whatever its balance
and the amount, both `DepositFunds` and `WithdrawFunds` under a live context
fail with `AccountBlocked` (and leave the store as it was). -/
theorem disabled_account_blocked (i : InMemoryStorage) (ctx : Context) (k : iban.IBAN)
    (x : ℚ) (acc : Account) (hctx : ctx.Err = none) (hk : i.items.lookup k = some acc)
    (hst : acc.Status = Disabled) :
    i.DepositFunds ctx k x = (some Error.AccountBlocked, i) ∧
      i.WithdrawFunds ctx k x = (some Error.AccountBlocked, i) := by
  have hna : acc.Status ≠ Active := by
    rw [hst]
    decide
  exact ⟨DepositFunds_blocked x hctx hk hna, WithdrawFunds_blocked x hctx hk hna⟩

/-- C5 on the test store: 100 to and from `testAccountDisabled`, as in the two
`OnBlockedAccount` tests. -/
theorem disabled_account_blocked_witness :
    createStorageWithTestAccounts.DepositFunds Context.Background
        testAccountDisabled.IBAN 100 =
        (some Error.AccountBlocked, createStorageWithTestAccounts) ∧
      createStorageWithTestAccounts.WithdrawFunds Context.Background
        testAccountDisabled.IBAN 100 =
        (some Error.AccountBlocked, createStorageWithTestAccounts) :=
  disabled_account_blocked createStorageWithTestAccounts Context.Background
    testAccountDisabled.IBAN 100 testAccountDisabled rfl lookup_testAccountDisabled rfl

/-- C7: under a context that was cancelled before the call, each of
`GetAccount`, `GetAllAccounts`, `AddAccount`, `DepositFunds`, `WithdrawFunds`,
`TransferFunds` and `TransferFundsJSON`, for every store and every argument,
returns `context.Canceled`, no account data (a nil pointer, a nil slice), and
leaves the store as it was. -/
theorem cancelled_context_fails (unmarshal : List UInt8 → Option transfer.Transfer)
    (i : InMemoryStorage) (k r : iban.IBAN) (a : Account) (x : ℚ) (payload : List UInt8)
    (loopVar : LoopVar) (order : List iban.IBAN) :
    i.GetAccount Context.Cancelled k = ((none, some Error.Canceled), i) ∧
      i.GetAllAccounts Context.Cancelled loopVar order = ((none, some Error.Canceled), i) ∧
      i.AddAccount Context.Cancelled a = (some Error.Canceled, i) ∧
      i.DepositFunds Context.Cancelled k x = (some Error.Canceled, i) ∧
      i.WithdrawFunds Context.Cancelled k x = (some Error.Canceled, i) ∧
      i.TransferFunds Context.Cancelled k r x = (some Error.Canceled, i) ∧
      i.TransferFundsJSON unmarshal Context.Cancelled payload = (some Error.Canceled, i) :=
  ⟨rfl, rfl, rfl, rfl, rfl, rfl, rfl⟩

/-- C8: under a live context `DepositFunds(id, amount)` fails with
`AccountNotFound` when `id` is not stored, fails with `AccountBlocked` when the
stored account's status is not Active (the store unchanged in both cases), and
otherwise returns nil and leaves the account with its old balance plus
`amount`. -/
theorem depositFunds_cases (i : InMemoryStorage) (ctx : Context) (k : iban.IBAN)
    (amount : ℚ) (hctx : ctx.Err = none) :
    (i.items.lookup k = none →
        i.DepositFunds ctx k amount = (some Error.AccountNotFound, i)) ∧
      (∀ acc, i.items.lookup k = some acc → acc.Status ≠ Active →
        i.DepositFunds ctx k amount = (some Error.AccountBlocked, i)) ∧
      (∀ acc, i.items.lookup k = some acc → acc.Status = Active →
        (i.DepositFunds ctx k amount).1 = none ∧
          balanceOf (i.DepositFunds ctx k amount).2 k = some (acc.Balance + amount)) := by
  refine ⟨fun hk => DepositFunds_not_found amount hctx hk,
    fun acc hk hst => DepositFunds_blocked amount hctx hk hst, fun acc hk hst => ?_⟩
  rw [DepositFunds_of_lookup amount hctx hk hst]
  simp [balanceOf, Finmap.lookup_insert]

/-- C8 on the test store, one call for each case: `testiban` is not stored,
`testAccountDisabled` is blocked, and 100 to `testAccountActive` is added to
its balance. -/
theorem depositFunds_cases_witness :
    createStorageWithTestAccounts.DepositFunds Context.Background "testiban" 100 =
        (some Error.AccountNotFound, createStorageWithTestAccounts) ∧
      createStorageWithTestAccounts.DepositFunds Context.Background
        testAccountDisabled.IBAN 100 =
        (some Error.AccountBlocked, createStorageWithTestAccounts) ∧
      (createStorageWithTestAccounts.DepositFunds Context.Background
        testAccountActive.IBAN 100).1 = none ∧
      balanceOf (createStorageWithTestAccounts.DepositFunds Context.Background
        testAccountActive.IBAN 100).2 testAccountActive.IBAN
        = some (testAccountActive.Balance + 100) :=
  ⟨(depositFunds_cases createStorageWithTestAccounts Context.Background "testiban" 100
      rfl).1 lookup_testiban,
    (depositFunds_cases createStorageWithTestAccounts Context.Background
      testAccountDisabled.IBAN 100 rfl).2.1 testAccountDisabled lookup_testAccountDisabled
      (by decide),
    (depositFunds_cases createStorageWithTestAccounts Context.Background
      testAccountActive.IBAN 100 rfl).2.2 testAccountActive lookup_testAccountActive rfl⟩

/-- C10: under a live context `AddAccount(a)` returns nil whether or not
`a.IBAN` is already stored; `GetAccount(a.IBAN)` on the store it leaves returns
`a` and nil, and every other identifier maps to what it mapped to before. -/
theorem addAccount_upsert (i : InMemoryStorage) (ctx : Context) (a : Account)
    (hctx : ctx.Err = none) :
    (i.AddAccount ctx a).1 = none ∧
      ((i.AddAccount ctx a).2.GetAccount ctx a.IBAN).1 = (some a, none) ∧
      ∀ k, k ≠ a.IBAN → (i.AddAccount ctx a).2.items.lookup k = i.items.lookup k := by
  refine ⟨by simp [AddAccount, hctx], ?_, fun k hk => ?_⟩
  · simp [AddAccount, GetAccount, hctx, Finmap.lookup_insert]
  · simp [AddAccount, hctx, Finmap.lookup_insert_of_ne _ hk]

/-- C10 on the test store: adding an account under the identifier of
`testAccountActive`, which is stored, returns nil and the new account is the
one `GetAccount` returns; `testAccountDisabled` is still what it was. -/
theorem addAccount_upsert_witness :
    (createStorageWithTestAccounts.AddAccount Context.Background
        { testAccountActive with Balance := 7 }).1 = none ∧
      ((createStorageWithTestAccounts.AddAccount Context.Background
        { testAccountActive with Balance := 7 }).2.GetAccount Context.Background
          testAccountActive.IBAN).1 = (some { testAccountActive with Balance := 7 }, none) ∧
      (createStorageWithTestAccounts.AddAccount Context.Background
        { testAccountActive with Balance := 7 }).2.items.lookup testAccountDisabled.IBAN
        = some testAccountDisabled :=
  have h := addAccount_upsert createStorageWithTestAccounts Context.Background
    { testAccountActive with Balance := 7 } rfl
  ⟨h.1, h.2.1, (h.2.2 testAccountDisabled.IBAN (by decide)).trans lookup_testAccountDisabled⟩

/-- C11, as amended: from a new store, after any finite sequence of calls in
which `AddAccount` was never called with an account whose identifier is `id`,
`GetAccount(id)` under a live context returns a nil account and
`AccountNotFound`. -/
theorem getAccount_never_added (unmarshal : List UInt8 → Option transfer.Transfer)
    (calls : List Call) (id : iban.IBAN) (ctx : Context) (hctx : ctx.Err = none)
    (hadd : ∀ c a, Call.AddAccount c a ∈ calls → a.IBAN ≠ id) :
    ((execAll unmarshal NewStorage calls).GetAccount ctx id).1 =
      (none, some Error.AccountNotFound) := by
  have hnone : (execAll unmarshal NewStorage calls).items.lookup id = none :=
    execAll_lookup_none unmarshal calls hadd (Finmap.lookup_empty id)
  simp [GetAccount, hctx, hnone]

/-- The amended C11 after the three `AddAccount` calls of the test store, a
deposit to `TESTIBAN`, which fails, and a transfer: `TESTIBAN` is not found, as
in `TestInMemoryStorage_GetAccount_OnNotFoundAccount`. -/
theorem getAccount_never_added_witness :
    ((execAll testUnmarshal NewStorage
        [Call.AddAccount Context.Background testAccountActive,
          Call.AddAccount Context.Background testAccountDisabled,
          Call.AddAccount Context.Background testAccountWithZeroBalance,
          Call.DepositFunds Context.Background "TESTIBAN" 100,
          Call.TransferFunds Context.Background testAccountActive.IBAN
            testAccountWithZeroBalance.IBAN 100]).GetAccount
        Context.Background "TESTIBAN").1 = (none, some Error.AccountNotFound) :=
  getAccount_never_added testUnmarshal _ "TESTIBAN" Context.Background rfl (by
    intro c a h
    simp only [List.mem_cons, Call.AddAccount.injEq, List.mem_singleton, reduceCtorEq,
      false_and, or_false, List.not_mem_nil] at h
    rcases h with ⟨-, rfl⟩ | ⟨-, rfl⟩ | ⟨-, rfl⟩ <;> decide)

/-- C11 as stated, without a condition on the signal, fails under a cancelled
context: after the three `AddAccount` calls of the test store, none of them
for `TESTIBAN`, `GetAccount(TESTIBAN)` with a cancelled context returns
`context.Canceled`, not `AccountNotFound`. -/
theorem getAccount_never_added_counterexample :
    (∀ c a, Call.AddAccount c a ∈
        [Call.AddAccount Context.Background testAccountActive,
          Call.AddAccount Context.Background testAccountDisabled,
          Call.AddAccount Context.Background testAccountWithZeroBalance] →
        a.IBAN ≠ "TESTIBAN") ∧
      ((execAll testUnmarshal NewStorage
        [Call.AddAccount Context.Background testAccountActive,
          Call.AddAccount Context.Background testAccountDisabled,
          Call.AddAccount Context.Background testAccountWithZeroBalance]).GetAccount
        Context.Cancelled "TESTIBAN").1 = (none, some Error.Canceled) ∧
      ((execAll testUnmarshal NewStorage
        [Call.AddAccount Context.Background testAccountActive,
          Call.AddAccount Context.Background testAccountDisabled,
          Call.AddAccount Context.Background testAccountWithZeroBalance]).GetAccount
        Context.Cancelled "TESTIBAN").1 ≠ (none, some Error.AccountNotFound) := by
  refine ⟨?_, rfl, by decide⟩
  intro c a h
  simp only [List.mem_cons, Call.AddAccount.injEq, List.mem_singleton, reduceCtorEq,
    false_and, or_false, List.not_mem_nil] at h
  rcases h with ⟨-, rfl⟩ | ⟨-, rfl⟩ | ⟨-, rfl⟩ <;> decide

/-- C12: whenever `WithdrawFunds(sender, amount)` returns an error on a store,
`TransferFunds(sender, receiver, amount)` on that store returns the same error
and leaves the whole store, and so the receiver's balance, as it was: no
deposit was made.  Under a live context the error is `AccountNotFound`,
`AccountBlocked` or `InsufficientFunds`. -/
theorem transferFunds_withdraw_fails (i : InMemoryStorage) (ctx : Context)
    (sender receiver : iban.IBAN) (amount : ℚ) (e : Error)
    (h : (i.WithdrawFunds ctx sender amount).1 = some e) :
    i.TransferFunds ctx sender receiver amount = (some e, i) ∧
      balanceOf (i.TransferFunds ctx sender receiver amount).2 receiver = balanceOf i receiver ∧
      (ctx.Err = none → e = Error.AccountNotFound ∨ e = Error.AccountBlocked ∨
        e = Error.InsufficientFunds) := by
  have ht : i.TransferFunds ctx sender receiver amount = (some e, i) := by
    cases hctx : ctx.Err with
    | some e1 =>
      rw [WithdrawFunds_done sender amount hctx] at h
      cases h
      exact TransferFunds_done sender receiver amount hctx
    | none =>
      rw [TransferFunds_live sender receiver amount hctx, if_neg (by simp [h])]
      exact WithdrawFunds_err h
  refine ⟨ht, by rw [ht], fun hctx => ?_⟩
  cases hk : i.items.lookup sender with
  | none =>
    rw [WithdrawFunds_not_found amount hctx hk] at h
    cases h
    exact Or.inl rfl
  | some acc =>
    by_cases hst : acc.Status = Active
    · by_cases hbal : acc.Balance < amount
      · rw [WithdrawFunds_insufficient hctx hk hst hbal] at h
        cases h
        exact Or.inr (Or.inr rfl)
      · rw [WithdrawFunds_of_lookup amount hctx hk hst (not_lt.mp hbal)] at h
        cases h
    · rw [WithdrawFunds_blocked amount hctx hk hst] at h
      cases h
      exact Or.inr (Or.inl rfl)

/-- C12 on the test store: the sender of `TestJSONWithWrongSenderIBAN` is not
stored, so the withdrawal fails with `AccountNotFound`, the transfer returns
that error, and the store is the one before the call. -/
theorem transferFunds_withdraw_fails_witness :
    (createStorageWithTestAccounts.WithdrawFunds Context.Background
        "BY20OLMP31350000001030000933" 100).1 = some Error.AccountNotFound ∧
      createStorageWithTestAccounts.TransferFunds Context.Background
        "BY20OLMP31350000001030000933" testAccountWithZeroBalance.IBAN 100 =
        (some Error.AccountNotFound, createStorageWithTestAccounts) :=
  have h : (createStorageWithTestAccounts.WithdrawFunds Context.Background
      "BY20OLMP31350000001030000933" 100).1 = some Error.AccountNotFound := by decide
  ⟨h, (transferFunds_withdraw_fails createStorageWithTestAccounts Context.Background
    "BY20OLMP31350000001030000933" testAccountWithZeroBalance.IBAN 100
    Error.AccountNotFound h).1⟩

/-- C13, as amended: `TransferFundsJSON` tests the signal, decodes, then calls
`TransferFunds`.  On a payload that decodes to a record it returns what
`TransferFunds` returns on the record's sender, receiver and amount, with the
same final store.  On a malformed payload it leaves the store as it was and
fails, with the decode error under a live context and with `ctx.Err()` under a
closed one.  So it agrees with the spec's decode-then-transfer whenever the
context is live or the payload decodes. -/
theorem transferFundsJSON_decode_then_transfer
    (unmarshal : List UInt8 → Option transfer.Transfer) (i : InMemoryStorage) (ctx : Context)
    (payload : List UInt8) :
    (∀ t, unmarshal payload = some t →
        i.TransferFundsJSON unmarshal ctx payload =
          i.TransferFunds ctx t.SenderIBAN t.ReceiverIBAN t.Amount) ∧
      (unmarshal payload = none → ctx.Err = none →
        i.TransferFundsJSON unmarshal ctx payload = (some Error.Unmarshal, i)) ∧
      (unmarshal payload = none → ∀ e, ctx.Err = some e →
        i.TransferFundsJSON unmarshal ctx payload = (some e, i)) ∧
      (ctx.Err = none ∨ (unmarshal payload).isSome →
        i.TransferFundsJSON unmarshal ctx payload =
          TransferFundsViaPayload unmarshal i ctx payload) := by
  refine ⟨fun t ht => TransferFundsJSON_of_decoded i ctx ht, fun ht hctx => ?_,
    fun ht e hctx => ?_, fun h => ?_⟩
  · rw [TransferFundsJSON_of_malformed i ctx ht, hctx]
    rfl
  · rw [TransferFundsJSON_of_malformed i ctx ht, hctx]
    rfl
  · cases ht : unmarshal payload with
    | some t =>
      rw [TransferFundsJSON_of_decoded i ctx ht]
      simp [TransferFundsViaPayload, ht]
    | none =>
      rcases h with hctx | hsome
      · rw [TransferFundsJSON_of_malformed i ctx ht, hctx]
        simp [TransferFundsViaPayload, ht]
      · rw [ht] at hsome
        cases hsome

/-- The amended C13 on the test store: `TestJSON` decodes to the transfer of
100 from `testAccountActive` to `testAccountWithZeroBalance`, and
`TransferFundsJSON` on it is that `TransferFunds` call; `testjson` does not
decode, and the call fails with the decode error and leaves the store. -/
theorem transferFundsJSON_decode_then_transfer_witness :
    createStorageWithTestAccounts.TransferFundsJSON testUnmarshal Context.Background
        (bytes TestJSON) =
        createStorageWithTestAccounts.TransferFunds Context.Background
          testAccountActive.IBAN testAccountWithZeroBalance.IBAN 100 ∧
      createStorageWithTestAccounts.TransferFundsJSON testUnmarshal Context.Background
        (bytes "testjson") = (some Error.Unmarshal, createStorageWithTestAccounts) :=
  ⟨(transferFundsJSON_decode_then_transfer testUnmarshal createStorageWithTestAccounts
      Context.Background (bytes TestJSON)).1
      { SenderIBAN := testAccountActive.IBAN,
        ReceiverIBAN := testAccountWithZeroBalance.IBAN, Amount := 100 } (by decide),
    (transferFundsJSON_decode_then_transfer testUnmarshal createStorageWithTestAccounts
      Context.Background (bytes "testjson")).2.1 (by decide) rfl⟩

/-- C13 as stated fails for a malformed payload under a cancelled context: on
the test store `TransferFundsJSON` of `testjson`, which does not decode, returns
`context.Canceled`, where decode-then-transfer gives the decode error. -/
theorem transferFundsJSON_decode_then_transfer_counterexample :
    testUnmarshal (bytes "testjson") = none ∧
      createStorageWithTestAccounts.TransferFundsJSON testUnmarshal Context.Cancelled
        (bytes "testjson") = (some Error.Canceled, createStorageWithTestAccounts) ∧
      TransferFundsViaPayload testUnmarshal createStorageWithTestAccounts Context.Cancelled
        (bytes "testjson") = (some Error.Unmarshal, createStorageWithTestAccounts) ∧
      (createStorageWithTestAccounts.TransferFundsJSON testUnmarshal Context.Cancelled
        (bytes "testjson")).1 ≠ some Error.Unmarshal := by
  have hm : testUnmarshal (bytes "testjson") = none := by decide
  refine ⟨hm, rfl, ?_, by decide⟩
  simp only [TransferFundsViaPayload, hm]

/-- C14, the code at the failing input: built with a Go version before 1.22
(one variable `v` for the whole loop), `GetAllAccounts` on the test store,
visiting the three keys in the order they were added, returns three pointers to
the one variable, which holds `testAccountWithZeroBalance`: three times that
account, and neither `testAccountActive` nor `testAccountDisabled`.  Whatever
the store and the order, all entries of the slice are then one account. -/
theorem getAllAccounts_aliased :
    createStorageWithTestAccounts.GetAllAccounts Context.Background LoopVar.PerLoop
        [testAccountActive.IBAN, testAccountDisabled.IBAN, testAccountWithZeroBalance.IBAN] =
        ((some [testAccountWithZeroBalance, testAccountWithZeroBalance,
          testAccountWithZeroBalance], none), createStorageWithTestAccounts) ∧
      testAccountActive ∉ [testAccountWithZeroBalance, testAccountWithZeroBalance,
        testAccountWithZeroBalance] ∧
      ∀ (i : InMemoryStorage) (order : List iban.IBAN) (accounts : List Account),
        (i.GetAllAccounts Context.Background LoopVar.PerLoop order).1.1 = some accounts →
        ∀ a ∈ accounts, ∀ b ∈ accounts, a = b := by
  refine ⟨by decide, by decide, ?_⟩
  intro i order accounts h a ha b hb
  simp only [GetAllAccounts, Context.Err, rangeItems_perLoop, Option.some.injEq] at h
  subst h
  simp only [List.mem_filterMap, List.mem_replicate, id] at ha hb
  obtain ⟨x, ⟨-, rfl⟩, hx⟩ := ha
  obtain ⟨y, ⟨-, rfl⟩, hy⟩ := hb
  rw [hx] at hy
  exact Option.some.inj hy

/-- C15: in a store holding an account `S` with balance 100 and an account `Z`
with balance 0, both Active, under a live context `TransferFunds(S, Z, 100)`
returns nil and leaves `S` with balance 0 and `Z` with balance 100, and
`WithdrawFunds(S, 1)` on the store it leaves fails with `InsufficientFunds`. -/
theorem example_scenario (i : InMemoryStorage) (ctx : Context) (S Z : iban.IBAN)
    (sAcc zAcc : Account) (hctx : ctx.Err = none) (hne : S ≠ Z)
    (hS : i.items.lookup S = some sAcc) (hSb : sAcc.Balance = 100)
    (hSa : sAcc.Status = Active)
    (hZ : i.items.lookup Z = some zAcc) (hZb : zAcc.Balance = 0)
    (hZa : zAcc.Status = Active) :
    (i.TransferFunds ctx S Z 100).1 = none ∧
      balanceOf (i.TransferFunds ctx S Z 100).2 S = some 0 ∧
      balanceOf (i.TransferFunds ctx S Z 100).2 Z = some 100 ∧
      ((i.TransferFunds ctx S Z 100).2.WithdrawFunds ctx S 1).1 =
        some Error.InsufficientFunds := by
  have ht := TransferFunds_of_lookup 100 hctx hne hS hSa (le_of_eq hSb.symm) hZ hZa
  have hS1 : (i.TransferFunds ctx S Z 100).2.items.lookup S =
      some { sAcc with Balance := sAcc.Balance - 100 } := by
    rw [ht]
    simp only
    rw [Finmap.lookup_insert_of_ne _ hne, Finmap.lookup_insert]
  have hZ1 : (i.TransferFunds ctx S Z 100).2.items.lookup Z =
      some { zAcc with Balance := zAcc.Balance + 100 } := by
    rw [ht]
    exact Finmap.lookup_insert _
  refine ⟨by rw [ht], ?_, ?_, ?_⟩
  · simp [balanceOf, hS1, hSb]
  · simp [balanceOf, hZ1, hZb]
  · rw [WithdrawFunds_insufficient hctx hS1 hSa (by simp only [hSb]; norm_num)]

/-- C15 on the test store, with `testAccountActive` as `S` and
`testAccountWithZeroBalance` as `Z`. -/
theorem example_scenario_witness :
    (createStorageWithTestAccounts.TransferFunds Context.Background
        testAccountActive.IBAN testAccountWithZeroBalance.IBAN 100).1 = none ∧
      balanceOf (createStorageWithTestAccounts.TransferFunds Context.Background
        testAccountActive.IBAN testAccountWithZeroBalance.IBAN 100).2
        testAccountActive.IBAN = some 0 ∧
      balanceOf (createStorageWithTestAccounts.TransferFunds Context.Background
        testAccountActive.IBAN testAccountWithZeroBalance.IBAN 100).2
        testAccountWithZeroBalance.IBAN = some 100 ∧
      ((createStorageWithTestAccounts.TransferFunds Context.Background
        testAccountActive.IBAN testAccountWithZeroBalance.IBAN 100).2.WithdrawFunds
        Context.Background testAccountActive.IBAN 1).1 = some Error.InsufficientFunds :=
  example_scenario createStorageWithTestAccounts Context.Background
    testAccountActive.IBAN testAccountWithZeroBalance.IBAN
    testAccountActive testAccountWithZeroBalance rfl (by decide)
    lookup_testAccountActive rfl rfl lookup_testAccountWithZeroBalance rfl rfl

/-- C16: when the withdrawal from the sender returns nil and the receiver is not
stored or is stored but not Active (either way it is not the sender),
`TransferFunds` returns the error of the deposit, `AccountNotFound` in the
first case and `AccountBlocked` in the second, and the store it leaves has the
withdrawal and not the deposit: the sender's account has its old balance minus
the amount, and every other identifier maps to what it mapped to before. -/
theorem transferFunds_deposit_fails (i : InMemoryStorage) (ctx : Context)
    (sender receiver : iban.IBAN) (amount : ℚ) (sAcc : Account)
    (hs : i.items.lookup sender = some sAcc)
    (hw : (i.WithdrawFunds ctx sender amount).1 = none)
    (hr : i.items.lookup receiver = none ∨
      ∃ rAcc, i.items.lookup receiver = some rAcc ∧ rAcc.Status ≠ Active) :
    (i.items.lookup receiver = none →
        (i.TransferFunds ctx sender receiver amount).1 = some Error.AccountNotFound) ∧
      ((∃ rAcc, i.items.lookup receiver = some rAcc ∧ rAcc.Status ≠ Active) →
        (i.TransferFunds ctx sender receiver amount).1 = some Error.AccountBlocked) ∧
      (i.TransferFunds ctx sender receiver amount).2.items.lookup sender =
        some { sAcc with Balance := sAcc.Balance - amount } ∧
      ∀ k, k ≠ sender →
        (i.TransferFunds ctx sender receiver amount).2.items.lookup k = i.items.lookup k := by
  obtain ⟨acc, hctx, hk, hst, hbal, -⟩ := WithdrawFunds_ok_inv hw
  rw [hs] at hk
  cases hk
  have hstore : (i.TransferFunds ctx sender receiver amount).2 =
      { items := i.items.insert sender { sAcc with Balance := sAcc.Balance - amount } } := by
    rcases hr with hnone | ⟨rAcc, hsome, hna⟩
    · rw [TransferFunds_receiver_not_found amount hctx hs hst hbal hnone]
    · rw [TransferFunds_receiver_blocked amount hctx hs hst hbal hsome hna]
  refine ⟨fun hnone => ?_, fun ⟨rAcc, hsome, hna⟩ => ?_, ?_, fun k hk => ?_⟩
  · rw [TransferFunds_receiver_not_found amount hctx hs hst hbal hnone]
  · rw [TransferFunds_receiver_blocked amount hctx hs hst hbal hsome hna]
  · rw [hstore]
    exact Finmap.lookup_insert _
  · rw [hstore]
    exact Finmap.lookup_insert_of_ne _ hk

/-- C16 on the test store: the receiver of `TestJSONWithWrongReceiverIBAN` is
not stored; a transfer of 100 to it from `testAccountActive` returns
`AccountNotFound` and leaves the sender with 100 - 100, and
`testAccountWithZeroBalance` as it was. -/
theorem transferFunds_deposit_fails_witness :
    (createStorageWithTestAccounts.TransferFunds Context.Background
        testAccountActive.IBAN "BY87MTBK98220010340000353411" 100).1
        = some Error.AccountNotFound ∧
      (createStorageWithTestAccounts.TransferFunds Context.Background
        testAccountActive.IBAN "BY87MTBK98220010340000353411" 100).2.items.lookup
        testAccountActive.IBAN =
        some { testAccountActive with Balance := testAccountActive.Balance - 100 } ∧
      (createStorageWithTestAccounts.TransferFunds Context.Background
        testAccountActive.IBAN "BY87MTBK98220010340000353411" 100).2.items.lookup
        testAccountWithZeroBalance.IBAN = some testAccountWithZeroBalance :=
  have hnone : createStorageWithTestAccounts.items.lookup "BY87MTBK98220010340000353411"
      = none := by decide
  have h := transferFunds_deposit_fails createStorageWithTestAccounts Context.Background
    testAccountActive.IBAN "BY87MTBK98220010340000353411" 100 testAccountActive
    lookup_testAccountActive (by decide) (Or.inl hnone)
  ⟨h.1 hnone, h.2.2.1,
    (h.2.2.2 testAccountWithZeroBalance.IBAN (by decide)).trans
      lookup_testAccountWithZeroBalance⟩

/-- C17: `DepositFunds`, `WithdrawFunds`, `TransferFunds` and
`TransferFundsJSON`, for every store, context and argument, leave the same
identifiers stored, each with an account of the same `IBAN` and `Status`;
outside the identifier they name (`DepositFunds`, `WithdrawFunds`), outside the
sender and the receiver (`TransferFunds`, and `TransferFundsJSON` with those of
the decoded record) every identifier maps to exactly what it mapped to. -/
theorem operations_change_balances_only (unmarshal : List UInt8 → Option transfer.Transfer)
    (i : InMemoryStorage) (ctx : Context) (k sender receiver : iban.IBAN) (amount : ℚ)
    (payload : List UInt8) :
    (SameUpToBalances [k] i (i.DepositFunds ctx k amount).2 ∧
        (i.DepositFunds ctx k amount).2.items.keys = i.items.keys) ∧
      (SameUpToBalances [k] i (i.WithdrawFunds ctx k amount).2 ∧
        (i.WithdrawFunds ctx k amount).2.items.keys = i.items.keys) ∧
      (SameUpToBalances [sender, receiver] i (i.TransferFunds ctx sender receiver amount).2 ∧
        (i.TransferFunds ctx sender receiver amount).2.items.keys = i.items.keys) ∧
      (SameUpToBalances
          (match unmarshal payload with
            | some t => [t.SenderIBAN, t.ReceiverIBAN]
            | none => [])
          i (i.TransferFundsJSON unmarshal ctx payload).2 ∧
        (i.TransferFundsJSON unmarshal ctx payload).2.items.keys = i.items.keys) :=
  ⟨⟨DepositFunds_frame i ctx k amount, (DepositFunds_frame i ctx k amount).keys_eq⟩,
    ⟨WithdrawFunds_frame i ctx k amount, (WithdrawFunds_frame i ctx k amount).keys_eq⟩,
    ⟨TransferFunds_frame i ctx sender receiver amount,
      (TransferFunds_frame i ctx sender receiver amount).keys_eq⟩,
    ⟨TransferFundsJSON_frame unmarshal i ctx payload,
      (TransferFundsJSON_frame unmarshal i ctx payload).keys_eq⟩⟩

/-- C18, as amended: under a live context `DepositFunds` returns nil for every
stored Active account and every amount, zero and negative ones included, and
adds the amount to the balance; so a store reached from a new one by calls
that create accounts with balance 0 only can hold a negative balance (add
`testAccountWithZeroBalance`, deposit -100). -/
theorem depositFunds_accepts_any_amount :
    (∀ (i : InMemoryStorage) (ctx : Context) (k : iban.IBAN) (acc : Account) (amount : ℚ),
        ctx.Err = none → i.items.lookup k = some acc → acc.Status = Active →
        (i.DepositFunds ctx k amount).1 = none ∧
          balanceOf (i.DepositFunds ctx k amount).2 k = some (acc.Balance + amount)) ∧
      ∃ calls : List Call, (∀ c a, Call.AddAccount c a ∈ calls → a.Balance = 0) ∧
        ∃ k b, balanceOf (execAll testUnmarshal NewStorage calls) k = some b ∧ b < 0 := by
  have hgen : ∀ (i : InMemoryStorage) (ctx : Context) (k : iban.IBAN) (acc : Account)
      (amount : ℚ), ctx.Err = none → i.items.lookup k = some acc → acc.Status = Active →
      (i.DepositFunds ctx k amount).1 = none ∧
        balanceOf (i.DepositFunds ctx k amount).2 k = some (acc.Balance + amount) := by
    intro i ctx k acc amount hctx hk hst
    rw [DepositFunds_of_lookup amount hctx hk hst]
    simp [balanceOf, Finmap.lookup_insert]
  refine ⟨hgen, [Call.AddAccount Context.Background testAccountWithZeroBalance,
    Call.DepositFunds Context.Background testAccountWithZeroBalance.IBAN (-100)], ?_,
    testAccountWithZeroBalance.IBAN, testAccountWithZeroBalance.Balance + -100, ?_, ?_⟩
  · intro c a h
    simp only [List.mem_cons, Call.AddAccount.injEq, List.mem_singleton, reduceCtorEq,
      or_false, List.not_mem_nil] at h
    rw [h.2]
    rfl
  · exact (hgen (NewStorage.AddAccount Context.Background testAccountWithZeroBalance).2
      Context.Background testAccountWithZeroBalance.IBAN testAccountWithZeroBalance (-100)
      rfl (by decide) rfl).2
  · norm_num [testAccountWithZeroBalance]

/-- The amended C18 on the test store: depositing -250 to `testAccountActive`
returns nil and leaves the balance 100 + -250. -/
theorem depositFunds_accepts_any_amount_witness :
    (createStorageWithTestAccounts.DepositFunds Context.Background
        testAccountActive.IBAN (-250)).1 = none ∧
      balanceOf (createStorageWithTestAccounts.DepositFunds Context.Background
        testAccountActive.IBAN (-250)).2 testAccountActive.IBAN
        = some (testAccountActive.Balance + -250) :=
  depositFunds_accepts_any_amount.1 createStorageWithTestAccounts Context.Background
    testAccountActive.IBAN testAccountActive (-250) rfl lookup_testAccountActive rfl

/-- C18 as stated, without a condition on the signal, fails under a cancelled
context: on the test store `testAccountActive` is stored and Active, and
`DepositFunds` of 100 to it with a cancelled context returns
`context.Canceled`, as in `TestInMemoryStorage_DepositFunds_WithCancel`. -/
theorem depositFunds_accepts_any_amount_counterexample :
    createStorageWithTestAccounts.items.lookup testAccountActive.IBAN
        = some testAccountActive ∧
      testAccountActive.Status = Active ∧
      (createStorageWithTestAccounts.DepositFunds Context.Cancelled
        testAccountActive.IBAN 100).1 = some Error.Canceled ∧
      (createStorageWithTestAccounts.DepositFunds Context.Cancelled
        testAccountActive.IBAN 100).1 ≠ none :=
  ⟨lookup_testAccountActive, rfl, rfl, by decide⟩

/-- C20: whenever `GetAccount`, `AddAccount`, `DepositFunds` or `WithdrawFunds`
returns an error, whichever it is and for every store, context and argument,
the store after the call is the store before it. -/
theorem single_account_errors_leave_store (i : InMemoryStorage) (ctx : Context)
    (k : iban.IBAN) (a : Account) (amount : ℚ) (e : Error) :
    ((i.GetAccount ctx k).1.2 = some e → (i.GetAccount ctx k).2 = i) ∧
      ((i.AddAccount ctx a).1 = some e → (i.AddAccount ctx a).2 = i) ∧
      ((i.DepositFunds ctx k amount).1 = some e → (i.DepositFunds ctx k amount).2 = i) ∧
      ((i.WithdrawFunds ctx k amount).1 = some e →
        (i.WithdrawFunds ctx k amount).2 = i) := by
  refine ⟨fun _ => ?_, fun h => ?_, fun h => by rw [DepositFunds_err h],
    fun h => by rw [WithdrawFunds_err h]⟩
  · unfold GetAccount
    split
    · rfl
    · split <;> rfl
  · unfold AddAccount at h ⊢
    split
    · rfl
    · rename_i hctx
      simp [hctx] at h

/-- C20 on the test store, one failing call for each operation: `GetAccount`
of `TESTIBAN`, `AddAccount` under a cancelled context, `DepositFunds` to
`testAccountDisabled`, `WithdrawFunds` of 100 from
`testAccountWithZeroBalance`. -/
theorem single_account_errors_leave_store_witness :
    (createStorageWithTestAccounts.GetAccount Context.Background "TESTIBAN").2 =
        createStorageWithTestAccounts ∧
      (createStorageWithTestAccounts.AddAccount Context.Cancelled testAccountActive).2 =
        createStorageWithTestAccounts ∧
      (createStorageWithTestAccounts.DepositFunds Context.Background
        testAccountDisabled.IBAN 100).2 = createStorageWithTestAccounts ∧
      (createStorageWithTestAccounts.WithdrawFunds Context.Background
        testAccountWithZeroBalance.IBAN 100).2 = createStorageWithTestAccounts :=
  ⟨(single_account_errors_leave_store createStorageWithTestAccounts Context.Background
      "TESTIBAN" testAccountActive 100 Error.AccountNotFound).1 (by decide),
    (single_account_errors_leave_store createStorageWithTestAccounts Context.Cancelled
      "TESTIBAN" testAccountActive 100 Error.Canceled).2.1 rfl,
    (single_account_errors_leave_store createStorageWithTestAccounts Context.Background
      testAccountDisabled.IBAN testAccountActive 100 Error.AccountBlocked).2.2.1 (by decide),
    (single_account_errors_leave_store createStorageWithTestAccounts Context.Background
      testAccountWithZeroBalance.IBAN testAccountActive 100
      Error.InsufficientFunds).2.2.2 (by decide)⟩

end storage

namespace iban

/-- C19: for every country code and every outcome of the random source,
`GenerateIBAN` returns the country code followed by exactly 2 decimal digits,
then exactly 4 uppercase letters `A`-`Z`, then exactly 20 decimal digits; its
length, in bytes as Go's `len` counts it and also in characters, is that of the
country code plus 26. -/
theorem generateIBAN_format (countryCode : String) (s : Source) :
    ∃ checkNumber bankCode accountNumber : List Char,
      (GenerateIBAN countryCode s).1 =
          countryCode ++ String.mk checkNumber ++ String.mk bankCode
            ++ String.mk accountNumber ∧
        checkNumber.length = 2 ∧ (∀ c ∈ checkNumber, c.isDigit = true) ∧
        bankCode.length = 4 ∧ (∀ c ∈ bankCode, c.isUpper = true) ∧
        accountNumber.length = 20 ∧ (∀ c ∈ accountNumber, c.isDigit = true) ∧
        (GenerateIBAN countryCode s).1.utf8ByteSize = countryCode.utf8ByteSize + 26 ∧
        (GenerateIBAN countryCode s).1.length = countryCode.length + 26 := by
  obtain ⟨hc1, hc2⟩ := Sprintf02d_digits (Source.Intn_lt s (show 0 < 100 by decide))
  obtain ⟨bank, hb1, hb2, hb3⟩ := bankCodeLoop_data 4 "" (s.Intn 100).2
  obtain ⟨num, hn1, hn2, hn3⟩ :=
    accountNumberLoop_data 20 "" (bankCodeLoop 4 "" (s.Intn 100).2).2
  have hres : (GenerateIBAN countryCode s).1 =
      countryCode ++ String.mk (Sprintf02d (s.Intn 100).1).data ++ String.mk bank
        ++ String.mk num := by
    apply String.ext
    simp only [GenerateIBAN, String.data_append, hb3, hn3]
    simp
  refine ⟨(Sprintf02d (s.Intn 100).1).data, bank, num, hres, hc1, hc2, hb1, hb2, hn1, hn2,
    ?_, ?_⟩
  · have hsize : ∀ l : List Char, (String.mk l).utf8ByteSize = String.utf8Len l :=
      fun l => rfl
    have happ : ∀ a b : String, (a ++ b).utf8ByteSize = a.utf8ByteSize + b.utf8ByteSize := by
      intro a b
      cases a
      cases b
      exact String.utf8Len_append _ _
    have e1 : String.utf8Len (Sprintf02d (s.Intn 100).1).data = 2 := by
      rw [utf8Len_of_ascii _ fun c hc => utf8Size_of_isDigit c (hc2 c hc), hc1]
    have e2 : String.utf8Len bank = 4 := by
      rw [utf8Len_of_ascii _ fun c hc => utf8Size_of_isUpper c (hb2 c hc), hb1]
    have e3 : String.utf8Len num = 20 := by
      rw [utf8Len_of_ascii _ fun c hc => utf8Size_of_isDigit c (hn2 c hc), hn1]
    rw [hres]
    simp only [happ, hsize, e1, e2, e3]
  · rw [hres]
    simp only [String.length_append, String.length_mk, hc1, hb1, hn1]

end iban

namespace storage

open entity InMemoryStorage

/-- C22, as amended: for two different stored Active accounts `S` and `R`, `S`
with a balance that is not negative, and an amount `x < 0`, `TransferFunds(S,
R, x)` under a live context returns nil, leaves `S` with its balance plus
`|x|` and `R` with its balance minus `|x|`, whatever the balance of `R` was:
it is negative afterwards when it was below `|x|`. -/
theorem negative_transfer_pulls (i : InMemoryStorage) (ctx : Context) (S R : iban.IBAN)
    (sAcc rAcc : Account) (x : ℚ) (hctx : ctx.Err = none) (hne : S ≠ R)
    (hS : i.items.lookup S = some sAcc) (hSa : sAcc.Status = Active)
    (hSb : 0 ≤ sAcc.Balance)
    (hR : i.items.lookup R = some rAcc) (hRa : rAcc.Status = Active) (hx : x < 0) :
    (i.TransferFunds ctx S R x).1 = none ∧
      balanceOf (i.TransferFunds ctx S R x).2 S = some (sAcc.Balance + |x|) ∧
      balanceOf (i.TransferFunds ctx S R x).2 R = some (rAcc.Balance - |x|) ∧
      (rAcc.Balance < |x| →
        ∃ b, balanceOf (i.TransferFunds ctx S R x).2 R = some b ∧ b < 0) := by
  have ht := TransferFunds_of_lookup x hctx hne hS hSa (le_trans (le_of_lt hx) hSb) hR hRa
  have habs : |x| = -x := abs_of_neg hx
  have hs1 : balanceOf (i.TransferFunds ctx S R x).2 S = some (sAcc.Balance + |x|) := by
    rw [ht, habs]
    simp [balanceOf, Finmap.lookup_insert_of_ne _ hne, Finmap.lookup_insert, sub_eq_add_neg]
  have hr1 : balanceOf (i.TransferFunds ctx S R x).2 R = some (rAcc.Balance - |x|) := by
    rw [ht, habs]
    simp [balanceOf, Finmap.lookup_insert, sub_eq_add_neg]
  exact ⟨by rw [ht], hs1, hr1, fun hlt => ⟨rAcc.Balance - |x|, hr1, sub_neg.mpr hlt⟩⟩

/-- The amended C22 on the test store: a transfer of -50 from
`testAccountActive` (100) to `testAccountWithZeroBalance` (0) returns nil and
leaves 150 and -50. -/
theorem negative_transfer_pulls_witness :
    (createStorageWithTestAccounts.TransferFunds Context.Background
        testAccountActive.IBAN testAccountWithZeroBalance.IBAN (-50)).1 = none ∧
      balanceOf (createStorageWithTestAccounts.TransferFunds Context.Background
        testAccountActive.IBAN testAccountWithZeroBalance.IBAN (-50)).2
        testAccountActive.IBAN = some 150 ∧
      balanceOf (createStorageWithTestAccounts.TransferFunds Context.Background
        testAccountActive.IBAN testAccountWithZeroBalance.IBAN (-50)).2
        testAccountWithZeroBalance.IBAN = some (-50) :=
  have h := negative_transfer_pulls createStorageWithTestAccounts Context.Background
    testAccountActive.IBAN testAccountWithZeroBalance.IBAN
    testAccountActive testAccountWithZeroBalance (-50) rfl (by decide)
    lookup_testAccountActive rfl (by norm_num [testAccountActive])
    lookup_testAccountWithZeroBalance rfl (by norm_num)
  ⟨h.1, h.2.1.trans (by norm_num [testAccountActive]),
    h.2.2.1.trans (by norm_num [testAccountWithZeroBalance])⟩

/-- C22 as stated, without a condition on the signal, fails under a cancelled
context: on the test store, with `testAccountActive` (100) as `S`,
`testAccountWithZeroBalance` as `R` and `x = -50`, `TransferFunds` with a
cancelled context returns `context.Canceled`. -/
theorem negative_transfer_pulls_counterexample :
    testAccountActive.IBAN ≠ testAccountWithZeroBalance.IBAN ∧
      createStorageWithTestAccounts.items.lookup testAccountActive.IBAN
        = some testAccountActive ∧
      testAccountActive.Status = Active ∧ (0 : ℚ) ≤ testAccountActive.Balance ∧
      createStorageWithTestAccounts.items.lookup testAccountWithZeroBalance.IBAN
        = some testAccountWithZeroBalance ∧
      testAccountWithZeroBalance.Status = Active ∧ (-50 : ℚ) < 0 ∧
      (createStorageWithTestAccounts.TransferFunds Context.Cancelled
        testAccountActive.IBAN testAccountWithZeroBalance.IBAN (-50)).1
        = some Error.Canceled ∧
      (createStorageWithTestAccounts.TransferFunds Context.Cancelled
        testAccountActive.IBAN testAccountWithZeroBalance.IBAN (-50)).1 ≠ none :=
  ⟨by decide, lookup_testAccountActive, rfl, by norm_num [testAccountActive],
    lookup_testAccountWithZeroBalance, rfl, by norm_num, rfl, by decide⟩

/-- C23: in every store reached from a new one by a finite sequence of calls
of the store's methods (`AddAccount`, `DepositFunds`, `WithdrawFunds`,
`TransferFunds`, `TransferFundsJSON`, and the others, which do not write), with
any contexts and arguments, the account stored under an identifier `k` has
`k` as its `IBAN`. -/
theorem stored_under_own_IBAN (unmarshal : List UInt8 → Option transfer.Transfer)
    (calls : List Call) (k : iban.IBAN) (a : Account)
    (h : (execAll unmarshal NewStorage calls).items.lookup k = some a) : a.IBAN = k :=
  execAll_keys unmarshal calls
    (fun k0 a0 h0 => by
      rw [NewStorage, Finmap.lookup_empty] at h0
      cases h0)
    k a h

/-- C23 after the three `AddAccount` calls of the test store and a deposit of
100 to `testAccountActive`: the account then stored under its identifier, with
balance 100 + 100, has that identifier as `IBAN`. -/
theorem stored_under_own_IBAN_witness :
    (execAll testUnmarshal NewStorage
        [Call.AddAccount Context.Background testAccountActive,
          Call.AddAccount Context.Background testAccountDisabled,
          Call.AddAccount Context.Background testAccountWithZeroBalance,
          Call.DepositFunds Context.Background testAccountActive.IBAN 100]).items.lookup
        testAccountActive.IBAN =
        some { testAccountActive with Balance := testAccountActive.Balance + 100 } ∧
      ({ testAccountActive with Balance := testAccountActive.Balance + 100 } : Account).IBAN
        = testAccountActive.IBAN :=
  have h : (execAll testUnmarshal NewStorage
      [Call.AddAccount Context.Background testAccountActive,
        Call.AddAccount Context.Background testAccountDisabled,
        Call.AddAccount Context.Background testAccountWithZeroBalance,
        Call.DepositFunds Context.Background testAccountActive.IBAN 100]).items.lookup
      testAccountActive.IBAN =
      some { testAccountActive with Balance := testAccountActive.Balance + 100 } := by
    show (createStorageWithTestAccounts.DepositFunds Context.Background
      testAccountActive.IBAN 100).2.items.lookup testAccountActive.IBAN = _
    rw [DepositFunds_of_lookup 100 (show Context.Background.Err = none from rfl)
      lookup_testAccountActive rfl]
    exact Finmap.lookup_insert _
  ⟨h, stored_under_own_IBAN testUnmarshal _ _ _ h⟩

/-- C24: on stores that correspond (the same identifiers, with accounts of
the same `IBAN` and balance and with statuses that correspond, `Active` with
`ACTIVE` and `Blocked` with `DISABLED`) and with arguments that correspond,
`GetAccount`, `AddAccount`, `DepositFunds`, `WithdrawFunds` and `TransferFunds`
of `pkg/storage` under a live context fail in the same cases as those of
`main.go` (not at all, not found, blocked, insufficient funds), return
corresponding accounts, and leave stores that correspond. -/
theorem stores_agree (m : main.InMemoryStorage) (p : InMemoryStorage) (ctx : Context)
    (k sender receiver : String) (amount : ℚ) (a : main.Account) (b : Account)
    (hctx : ctx.Err = none) (h : StoreCorr m p) (hab : AccountCorr a b) :
    (LookupCorr (m.GetAccount k).1.1 (p.GetAccount ctx k).1.1 ∧
        ErrorCorr (m.GetAccount k).1.2 (p.GetAccount ctx k).1.2 ∧
        StoreCorr (m.GetAccount k).2 (p.GetAccount ctx k).2) ∧
      ((p.AddAccount ctx b).1 = none ∧ StoreCorr (m.AddAccount a) (p.AddAccount ctx b).2) ∧
      (ErrorCorr (m.DepositFunds k amount).1 (p.DepositFunds ctx k amount).1 ∧
        StoreCorr (m.DepositFunds k amount).2 (p.DepositFunds ctx k amount).2) ∧
      (ErrorCorr (m.WithdrawFunds k amount).1 (p.WithdrawFunds ctx k amount).1 ∧
        StoreCorr (m.WithdrawFunds k amount).2 (p.WithdrawFunds ctx k amount).2) ∧
      (ErrorCorr (m.TransferFunds sender receiver amount).1
          (p.TransferFunds ctx sender receiver amount).1 ∧
        StoreCorr (m.TransferFunds sender receiver amount).2
          (p.TransferFunds ctx sender receiver amount).2) := by
  refine ⟨?_, ?_, DepositFunds_corr hctx h k amount, WithdrawFunds_corr hctx h k amount,
    TransferFunds_corr hctx h sender receiver amount⟩
  · have hk := h k
    simp only [main.InMemoryStorage.GetAccount, GetAccount, hctx]
    cases hm : m.items.lookup k with
    | none =>
      cases hp : p.items.lookup k with
      | none => exact ⟨trivial, Or.inl ⟨rfl, rfl⟩, h⟩
      | some b0 =>
        rw [hm, hp] at hk
        exact absurd hk id
    | some a0 =>
      cases hp : p.items.lookup k with
      | none =>
        rw [hm, hp] at hk
        exact absurd hk id
      | some b0 =>
        rw [hm, hp] at hk
        exact ⟨hk, trivial, h⟩
  · simp only [main.InMemoryStorage.AddAccount, AddAccount, hctx]
    refine ⟨trivial, ?_⟩
    rw [hab.1]
    exact h.insert b.IBAN hab

/-- C24 on the stores the two programs start with: the two system accounts of
`InitDefaultAccounts` in `main.go` and the same two added as `ACTIVE` in
`cmd/app`.  The stores correspond, and a withdrawal of 100 from the state
account, which holds 0, fails on both with insufficient funds. -/
theorem stores_agree_witness :
    StoreCorr main.NewStorage.InitDefaultAccounts
        ((NewStorage.AddAccount Context.Background
          { IBAN := main.StateAccountIBAN, Balance := 0, Status := Active }).2.AddAccount
          Context.Background
          { IBAN := main.DestructionAccountIBAN, Balance := 0, Status := Active }).2 ∧
      (main.NewStorage.InitDefaultAccounts.WithdrawFunds main.StateAccountIBAN 100).1 =
        some "недостаточно средств" ∧
      (((NewStorage.AddAccount Context.Background
          { IBAN := main.StateAccountIBAN, Balance := 0, Status := Active }).2.AddAccount
          Context.Background
          { IBAN := main.DestructionAccountIBAN, Balance := 0, Status := Active }).2.WithdrawFunds
        Context.Background main.StateAccountIBAN 100).1 = some Error.InsufficientFunds ∧
      ErrorCorr
        (main.NewStorage.InitDefaultAccounts.WithdrawFunds main.StateAccountIBAN 100).1
        (((NewStorage.AddAccount Context.Background
          { IBAN := main.StateAccountIBAN, Balance := 0, Status := Active }).2.AddAccount
          Context.Background
          { IBAN := main.DestructionAccountIBAN, Balance := 0, Status := Active }).2.WithdrawFunds
        Context.Background main.StateAccountIBAN 100).1 :=
  have h1 := (stores_agree main.NewStorage NewStorage Context.Background
    "" "" "" 0 { IBAN := main.StateAccountIBAN, Balance := 0, Status := 0 }
    { IBAN := main.StateAccountIBAN, Balance := 0, Status := Active } rfl StoreCorr.empty
    ⟨rfl, rfl, Or.inl ⟨rfl, rfl⟩⟩).2.1.2
  have h2 := (stores_agree _ _ Context.Background
    "" "" "" 0 { IBAN := main.DestructionAccountIBAN, Balance := 0, Status := 0 }
    { IBAN := main.DestructionAccountIBAN, Balance := 0, Status := Active } rfl h1
    ⟨rfl, rfl, Or.inl ⟨rfl, rfl⟩⟩).2.1.2
  ⟨h2, by decide, by decide,
    (stores_agree _ _ Context.Background main.StateAccountIBAN "" "" 100
      { IBAN := main.StateAccountIBAN, Balance := 0, Status := 0 }
      { IBAN := main.StateAccountIBAN, Balance := 0, Status := Active } rfl h2
      ⟨rfl, rfl, Or.inl ⟨rfl, rfl⟩⟩).2.2.2.1.1⟩

end storage

/-! ## The claims that turn on the arithmetic of `float64` -/

namespace binary64

open entity Float64 InMemoryStorage

/-- C1, as amended: for a sender and a receiver that are different accounts,
both stored and Active, and an amount with `balance >= amount` for the sender,
a transfer under a live context returns nil and leaves the sender with its old
balance minus the amount and the receiver with its old balance plus the amount,
each as `float64` computes it; the sum of the two balances is what it was
whenever neither of the two operations rounds. -/
theorem transferFunds_valid (i : InMemoryStorage) (ctx : Context) (sender receiver : iban.IBAN)
    (x : Float64) (sAcc rAcc : Account) (hctx : ctx.Err = none) (hne : sender ≠ receiver)
    (hs : i.items.lookup sender = some sAcc) (hsA : sAcc.Status = Active)
    (hbal : x.le sAcc.Balance = true)
    (hr : i.items.lookup receiver = some rAcc) (hrA : rAcc.Status = Active) :
    (i.TransferFunds ctx sender receiver x).1 = none ∧
      balanceOf (i.TransferFunds ctx sender receiver x).2 sender =
        some (sAcc.Balance.sub x) ∧
      balanceOf (i.TransferFunds ctx sender receiver x).2 receiver =
        some (rAcc.Balance.add x) ∧
      (ExactSub sAcc.Balance x → ExactAdd rAcc.Balance x →
        ∃ vs vr vs1 vr1, sAcc.Balance.toRat? = some vs ∧ rAcc.Balance.toRat? = some vr ∧
          (sAcc.Balance.sub x).toRat? = some vs1 ∧ (rAcc.Balance.add x).toRat? = some vr1 ∧
          vs1 + vr1 = vs + vr) := by
  have ht := TransferFunds_of_lookup_f64 hctx hne hs hsA (lt_eq_false_of_le hbal) hr hrA
  refine ⟨by rw [ht], ?_, ?_, ?_⟩
  · rw [ht]
    simp [balanceOf, Finmap.lookup_insert_of_ne _ hne, Finmap.lookup_insert]
  · rw [ht]
    simp [balanceOf, Finmap.lookup_insert]
  · rintro ⟨va, vb, h1, h2, h3⟩ ⟨wa, wb, g1, g2, g3⟩
    rw [h2] at g2
    cases g2
    exact ⟨va, wa, va - vb, wa + vb, h1, g1, h3, g3, by ring⟩

/-- The amended C1 on the test store: 100 from `testAccountActive` to
`testAccountWithZeroBalance`, as in `TestInMemoryStorage_TransferFunds`, leaves
0 and 100. -/
theorem transferFunds_valid_witness :
    (createStorageWithTestAccounts.TransferFunds Context.Background
        testAccountActive.IBAN testAccountWithZeroBalance.IBAN (ofNat 100)).1 = none ∧
      balanceOf (createStorageWithTestAccounts.TransferFunds Context.Background
        testAccountActive.IBAN testAccountWithZeroBalance.IBAN (ofNat 100)).2
        testAccountActive.IBAN = some (ofNat 0) ∧
      balanceOf (createStorageWithTestAccounts.TransferFunds Context.Background
        testAccountActive.IBAN testAccountWithZeroBalance.IBAN (ofNat 100)).2
        testAccountWithZeroBalance.IBAN = some (ofNat 100) :=
  have h := transferFunds_valid createStorageWithTestAccounts Context.Background
    testAccountActive.IBAN testAccountWithZeroBalance.IBAN (ofNat 100)
    testAccountActive testAccountWithZeroBalance rfl (by decide)
    lookup_testAccountActive_f64 rfl (by decide)
    lookup_testAccountWithZeroBalance_f64 rfl
  ⟨h.1, h.2.1.trans (congrArg some hundred_sub_hundred),
    h.2.2.1.trans (congrArg some zero_add_hundred)⟩

/-- C1 as stated fails in two ways.  When the sender is the receiver: on the
test store a transfer of 50 from `testAccountActive` to itself meets every
condition of the claim and returns nil, and the balance afterwards is 100, not
100 - 50.  When an operation rounds: with a sender holding 9007199254740994, a
receiver holding 0 and the amount 1, the transfer returns nil and leaves
9007199254740992 and 1, whose sum is neither as exact numbers nor as `float64`
the sum before. -/
theorem transferFunds_valid_counterexample :
    (createStorageWithTestAccounts.items.lookup testAccountActive.IBAN =
        some testAccountActive ∧
      testAccountActive.Status = Active ∧
      (ofNat 50).le testAccountActive.Balance = true ∧
      (createStorageWithTestAccounts.TransferFunds Context.Background
        testAccountActive.IBAN testAccountActive.IBAN (ofNat 50)).1 = none ∧
      balanceOf (createStorageWithTestAccounts.TransferFunds Context.Background
        testAccountActive.IBAN testAccountActive.IBAN (ofNat 50)).2 testAccountActive.IBAN
        = some (ofNat 100) ∧
      ofNat 100 ≠ testAccountActive.Balance.sub (ofNat 50)) ∧
    (largeAccount.IBAN ≠ testAccountWithZeroBalance.IBAN ∧
      largeStorage.items.lookup largeAccount.IBAN = some largeAccount ∧
      largeAccount.Status = Active ∧ (ofNat 1).le largeAccount.Balance = true ∧
      largeStorage.items.lookup testAccountWithZeroBalance.IBAN =
        some testAccountWithZeroBalance ∧
      testAccountWithZeroBalance.Status = Active ∧
      (largeStorage.TransferFunds Context.Background
        largeAccount.IBAN testAccountWithZeroBalance.IBAN (ofNat 1)).1 = none ∧
      balanceOf (largeStorage.TransferFunds Context.Background
        largeAccount.IBAN testAccountWithZeroBalance.IBAN (ofNat 1)).2 largeAccount.IBAN
        = some (ofNat 9007199254740992) ∧
      balanceOf (largeStorage.TransferFunds Context.Background
        largeAccount.IBAN testAccountWithZeroBalance.IBAN (ofNat 1)).2
        testAccountWithZeroBalance.IBAN = some (ofNat 1) ∧
      largeAccount.Balance.toRat? = some 9007199254740994 ∧
      testAccountWithZeroBalance.Balance.toRat? = some 0 ∧
      (ofNat 9007199254740992).toRat? = some 9007199254740992 ∧
      (ofNat 1).toRat? = some 1 ∧
      (9007199254740992 : ℚ) + 1 ≠ 9007199254740994 + 0 ∧
      (ofNat 9007199254740992).add (ofNat 1) ≠
        largeAccount.Balance.add testAccountWithZeroBalance.Balance) := by
  have hle50 : (ofNat 50).le testAccountActive.Balance = true := by decide
  have hself := TransferFunds_self_f64 (show Context.Background.Err = none from rfl)
    lookup_testAccountActive_f64 rfl (lt_eq_false_of_le hle50)
  have hle1 : (ofNat 1).le largeAccount.Balance = true := by
    show (ofNat 1).le (ofNat 9007199254740994) = true
    rw [ofNat_1, ofNat_large]
    decide
  have hne : largeAccount.IBAN ≠ testAccountWithZeroBalance.IBAN := by decide
  have ht := TransferFunds_of_lookup_f64 (show Context.Background.Err = none from rfl) hne
    lookup_largeAccount_f64 rfl (lt_eq_false_of_le hle1) lookup_zero_in_large_f64 rfl
  refine ⟨⟨lookup_testAccountActive_f64, rfl, hle50, by rw [hself], ?_, by decide⟩,
    hne, lookup_largeAccount_f64, rfl, hle1, lookup_zero_in_large_f64, rfl, by rw [ht], ?_, ?_,
    toRat_ofNat_large, toRat_ofNat_0, toRat_ofNat_large_below, toRat_ofNat_1, by norm_num, ?_⟩
  · rw [hself]
    simp only [balanceOf, Finmap.lookup_insert, Option.map_some']
    exact congrArg some (by
      show ((ofNat 100).sub (ofNat 50)).add (ofNat 50) = ofNat 100
      rw [hundred_sub_fifty, fifty_add_fifty])
  · rw [ht]
    simp only [balanceOf, Finmap.lookup_insert_of_ne _ hne, Finmap.lookup_insert,
      Option.map_some']
    exact congrArg some large_sub_one
  · rw [ht]
    simp only [balanceOf, Finmap.lookup_insert, Option.map_some']
    exact congrArg some zero_add_one
  · show (ofNat 9007199254740992).add (ofNat 1) ≠ (ofNat 9007199254740994).add (ofNat 0)
    rw [large_below_add_one, large_add_zero]
    exact large_below_ne_large

/-- C3, as amended: if `TransferFunds` returns nil, the sum of the balances of
all accounts, taken as exact numbers, is afterwards the sum before with the
sender's balance replaced by the difference `float64` computes and the
receiver's by the sum it computes; so the sum is unchanged whenever the
subtraction from the sender and the addition to the receiver are both exact.
`rAcc` is the receiver's account as the deposit finds it: the stored one, or
for a transfer to oneself the sender's after the withdrawal. -/
theorem transferFunds_conserves_total (i : InMemoryStorage) (ctx : Context)
    (sender receiver : iban.IBAN) (x : Float64) (sAcc rAcc : Account)
    (h : (i.TransferFunds ctx sender receiver x).1 = none)
    (hs : i.items.lookup sender = some sAcc)
    (hr : (i.WithdrawFunds ctx sender x).2.items.lookup receiver = some rAcc) :
    totalBalance (i.TransferFunds ctx sender receiver x).2 =
        totalBalance i - sAcc.Balance.toRat?.getD 0 + (sAcc.Balance.sub x).toRat?.getD 0
          - rAcc.Balance.toRat?.getD 0 + (rAcc.Balance.add x).toRat?.getD 0 ∧
      (ExactSub sAcc.Balance x → ExactAdd rAcc.Balance x →
        totalBalance (i.TransferFunds ctx sender receiver x).2 = totalBalance i) := by
  have ht := TransferFunds_total_f64 h hs hr
  refine ⟨ht, ?_⟩
  rintro ⟨va, vb, h1, h2, h3⟩ ⟨wa, wb, g1, g2, g3⟩
  rw [h2] at g2
  cases g2
  rw [ht]
  simp only [h1, h3, g1, g3, Option.getD_some]
  ring

/-- The amended C3 on the test store: the transfer of 100 from
`testAccountActive` to `testAccountWithZeroBalance` returns nil, neither
operation rounds, and the sum of the balances is unchanged. -/
theorem transferFunds_conserves_total_witness :
    (createStorageWithTestAccounts.TransferFunds Context.Background
        testAccountActive.IBAN testAccountWithZeroBalance.IBAN (ofNat 100)).1 = none ∧
      ExactSub testAccountActive.Balance (ofNat 100) ∧
      ExactAdd testAccountWithZeroBalance.Balance (ofNat 100) ∧
      totalBalance (createStorageWithTestAccounts.TransferFunds Context.Background
        testAccountActive.IBAN testAccountWithZeroBalance.IBAN (ofNat 100)).2 =
        totalBalance createStorageWithTestAccounts := by
  have hne : testAccountActive.IBAN ≠ testAccountWithZeroBalance.IBAN := by decide
  have hle : (ofNat 100).le testAccountActive.Balance = true := by decide
  have hok : (createStorageWithTestAccounts.TransferFunds Context.Background
      testAccountActive.IBAN testAccountWithZeroBalance.IBAN (ofNat 100)).1 = none := by
    rw [TransferFunds_of_lookup_f64 (show Context.Background.Err = none from rfl) hne
      lookup_testAccountActive_f64 rfl (lt_eq_false_of_le hle)
      lookup_testAccountWithZeroBalance_f64 rfl]
  have hr : (createStorageWithTestAccounts.WithdrawFunds Context.Background
      testAccountActive.IBAN (ofNat 100)).2.items.lookup testAccountWithZeroBalance.IBAN =
      some testAccountWithZeroBalance := by
    rw [WithdrawFunds_of_lookup_f64 (show Context.Background.Err = none from rfl)
      lookup_testAccountActive_f64 rfl (lt_eq_false_of_le hle)]
    show Finmap.lookup _ (Finmap.insert _ _ _) = _
    rw [Finmap.lookup_insert_of_ne _ (Ne.symm hne)]
    exact lookup_testAccountWithZeroBalance_f64
  have hsub : ExactSub testAccountActive.Balance (ofNat 100) :=
    ⟨100, 100, toRat_ofNat_100, toRat_ofNat_100, by
      show ((ofNat 100).sub (ofNat 100)).toRat? = _
      rw [hundred_sub_hundred, toRat_ofNat_0]
      norm_num⟩
  have hadd : ExactAdd testAccountWithZeroBalance.Balance (ofNat 100) :=
    ⟨0, 100, toRat_ofNat_0, toRat_ofNat_100, by
      show ((ofNat 0).add (ofNat 100)).toRat? = _
      rw [zero_add_hundred, toRat_ofNat_100]
      norm_num⟩
  exact ⟨hok, hsub, hadd,
    (transferFunds_conserves_total createStorageWithTestAccounts Context.Background
      testAccountActive.IBAN testAccountWithZeroBalance.IBAN (ofNat 100)
      testAccountActive testAccountWithZeroBalance hok lookup_testAccountActive_f64 hr).2
      hsub hadd⟩

/-- C3 as stated fails where an operation rounds: in a store holding an account
with 9007199254740994 and one with 0, the transfer of 1 from the first to the
second returns nil, and the sum of the balances afterwards is the sum before
less 1. -/
theorem transferFunds_conserves_total_counterexample :
    (largeStorage.TransferFunds Context.Background
        largeAccount.IBAN testAccountWithZeroBalance.IBAN (ofNat 1)).1 = none ∧
      totalBalance (largeStorage.TransferFunds Context.Background
        largeAccount.IBAN testAccountWithZeroBalance.IBAN (ofNat 1)).2 =
        totalBalance largeStorage - 1 ∧
      totalBalance (largeStorage.TransferFunds Context.Background
        largeAccount.IBAN testAccountWithZeroBalance.IBAN (ofNat 1)).2 ≠
        totalBalance largeStorage := by
  have hle1 : (ofNat 1).le largeAccount.Balance = true := by
    show (ofNat 1).le (ofNat 9007199254740994) = true
    rw [ofNat_1, ofNat_large]
    decide
  have hne : largeAccount.IBAN ≠ testAccountWithZeroBalance.IBAN := by decide
  have hok : (largeStorage.TransferFunds Context.Background
      largeAccount.IBAN testAccountWithZeroBalance.IBAN (ofNat 1)).1 = none := by
    rw [TransferFunds_of_lookup_f64 (show Context.Background.Err = none from rfl) hne
      lookup_largeAccount_f64 rfl (lt_eq_false_of_le hle1) lookup_zero_in_large_f64 rfl]
  have hr : (largeStorage.WithdrawFunds Context.Background
      largeAccount.IBAN (ofNat 1)).2.items.lookup testAccountWithZeroBalance.IBAN =
      some testAccountWithZeroBalance := by
    rw [WithdrawFunds_of_lookup_f64 (show Context.Background.Err = none from rfl)
      lookup_largeAccount_f64 rfl (lt_eq_false_of_le hle1)]
    show Finmap.lookup _ (Finmap.insert _ _ _) = _
    rw [Finmap.lookup_insert_of_ne _ (Ne.symm hne)]
    exact lookup_zero_in_large_f64
  have htot : totalBalance (largeStorage.TransferFunds Context.Background
      largeAccount.IBAN testAccountWithZeroBalance.IBAN (ofNat 1)).2 =
      totalBalance largeStorage - 1 := by
    rw [TransferFunds_total_f64 hok lookup_largeAccount_f64 hr]
    show totalBalance largeStorage - (ofNat 9007199254740994).toRat?.getD 0
      + ((ofNat 9007199254740994).sub (ofNat 1)).toRat?.getD 0
      - (ofNat 0).toRat?.getD 0 + ((ofNat 0).add (ofNat 1)).toRat?.getD 0 = _
    rw [large_sub_one, zero_add_one, toRat_ofNat_large, toRat_ofNat_large_below,
      toRat_ofNat_0, toRat_ofNat_1]
    simp only [Option.getD_some]
    ring
  refine ⟨hok, htot, ?_⟩
  rw [htot]
  intro h
  linarith

/-- C6, as amended: a withdrawal never makes a balance negative: if
`WithdrawFunds(id, amount)` returns nil, the resulting balance, the old one
minus the amount as `float64` computes it, is not below 0; it is `>= 0` unless
it is a NaN, and it is no NaN when the amount and the old balance are no NaN
and are not both the same infinity. -/
theorem withdrawFunds_balance_not_negative (i : InMemoryStorage) (ctx : Context)
    (k : iban.IBAN) (amount : Float64) (h : (i.WithdrawFunds ctx k amount).1 = none) :
    ∃ acc b, i.items.lookup k = some acc ∧
      balanceOf (i.WithdrawFunds ctx k amount).2 k = some b ∧
      b = acc.Balance.sub amount ∧
      b.lt zero = false ∧
      (b ≠ NaN → zero.le b = true) ∧
      (acc.Balance ≠ NaN → amount ≠ NaN →
        (∀ s, ¬(acc.Balance = Float64.Inf s ∧ amount = Float64.Inf s)) → zero.le b = true) := by
  obtain ⟨acc, -, hk, -, hlt, hstore⟩ := WithdrawFunds_ok_inv_f64 h
  refine ⟨acc, acc.Balance.sub amount, hk, ?_, rfl, sub_not_negative hlt,
    le_zero_of_not_lt (sub_not_negative hlt),
    fun ha hb hinf => le_zero_of_not_lt (sub_not_negative hlt) (sub_ne_NaN ha hb hinf)⟩
  rw [hstore]
  simp [balanceOf, Finmap.lookup_insert]

/-- The amended C6 on the test store: withdrawing 50 from `testAccountActive`,
which holds 100, returns nil and leaves 50, which is at least 0. -/
theorem withdrawFunds_balance_not_negative_witness :
    (createStorageWithTestAccounts.WithdrawFunds Context.Background
        testAccountActive.IBAN (ofNat 50)).1 = none ∧
      ∃ acc b, createStorageWithTestAccounts.items.lookup testAccountActive.IBAN = some acc ∧
        balanceOf (createStorageWithTestAccounts.WithdrawFunds Context.Background
          testAccountActive.IBAN (ofNat 50)).2 testAccountActive.IBAN = some b ∧
        b = acc.Balance.sub (ofNat 50) ∧
        b.lt zero = false ∧
        (b ≠ NaN → zero.le b = true) ∧
        (acc.Balance ≠ NaN → ofNat 50 ≠ NaN →
          (∀ s, ¬(acc.Balance = Float64.Inf s ∧ ofNat 50 = Float64.Inf s)) → zero.le b = true) :=
  have h : (createStorageWithTestAccounts.WithdrawFunds Context.Background
      testAccountActive.IBAN (ofNat 50)).1 = none := by
    rw [WithdrawFunds_of_lookup_f64 (show Context.Background.Err = none from rfl)
      lookup_testAccountActive_f64 rfl (by decide)]
  ⟨h, withdrawFunds_balance_not_negative createStorageWithTestAccounts Context.Background
    testAccountActive.IBAN (ofNat 50) h⟩

/-- C6 as stated fails for an amount that is a NaN, and for an infinite amount
taken from an infinite balance.  On the test store, withdrawing a NaN from
`testAccountActive` passes the test `acc.Balance < amount`, returns nil and
leaves the balance a NaN, which is not `>= 0`.  After a deposit of `+Inf` to
`testAccountActive`, which returns nil, the withdrawal of `+Inf` returns nil
and leaves a NaN as well. -/
theorem withdrawFunds_balance_not_negative_counterexample :
    ((createStorageWithTestAccounts.WithdrawFunds Context.Background
        testAccountActive.IBAN NaN).1 = none ∧
      balanceOf (createStorageWithTestAccounts.WithdrawFunds Context.Background
        testAccountActive.IBAN NaN).2 testAccountActive.IBAN = some NaN ∧
      zero.le NaN = false) ∧
    ((createStorageWithTestAccounts.DepositFunds Context.Background
        testAccountActive.IBAN (Float64.Inf false)).1 = none ∧
      ((createStorageWithTestAccounts.DepositFunds Context.Background
        testAccountActive.IBAN (Float64.Inf false)).2.WithdrawFunds Context.Background
        testAccountActive.IBAN (Float64.Inf false)).1 = none ∧
      balanceOf ((createStorageWithTestAccounts.DepositFunds Context.Background
        testAccountActive.IBAN (Float64.Inf false)).2.WithdrawFunds Context.Background
        testAccountActive.IBAN (Float64.Inf false)).2 testAccountActive.IBAN = some NaN) := by
  have hw := @WithdrawFunds_of_lookup_f64 createStorageWithTestAccounts Context.Background
    testAccountActive.IBAN testAccountActive NaN rfl lookup_testAccountActive_f64 rfl
    (by decide)
  have hd := @DepositFunds_of_lookup_f64 createStorageWithTestAccounts Context.Background
    testAccountActive.IBAN testAccountActive (Float64.Inf false) rfl lookup_testAccountActive_f64 rfl
  have hw2 := @WithdrawFunds_of_lookup_f64
    (createStorageWithTestAccounts.DepositFunds Context.Background
      testAccountActive.IBAN (Float64.Inf false)).2 Context.Background
    testAccountActive.IBAN { testAccountActive with Balance := Float64.Inf false } (Float64.Inf false) rfl
    (by rw [hd]; exact Finmap.lookup_insert _) rfl (by decide)
  refine ⟨⟨by rw [hw], ?_, rfl⟩, by rw [hd], by rw [hw2], ?_⟩
  · rw [hw]
    simp only [balanceOf, Finmap.lookup_insert, Option.map_some']
    exact congrArg some (by decide)
  · rw [hw2]
    simp only [balanceOf, Finmap.lookup_insert, Option.map_some']
    exact congrArg some (by decide)

/-- C9, as amended: under a live context `WithdrawFunds(id, amount)` returns
nil exactly when `id` is stored, Active and the test `balance < amount` fails,
which for a balance and an amount that are no NaN is `balance >= amount`; the
new balance is then the old one minus `amount` as `float64` computes it, so
withdrawing exactly the whole of a finite balance succeeds and leaves 0;
otherwise it fails with `AccountNotFound` when `id` is not stored, else
`AccountBlocked` when the status is not Active, else `InsufficientFunds`, the
store unchanged. -/
theorem withdrawFunds_cases (i : InMemoryStorage) (ctx : Context) (k : iban.IBAN)
    (amount : Float64) (hctx : ctx.Err = none) :
    ((i.WithdrawFunds ctx k amount).1 = none ↔
        ∃ acc, i.items.lookup k = some acc ∧ acc.Status = Active ∧
          acc.Balance.lt amount = false) ∧
      (∀ acc, i.items.lookup k = some acc → acc.Balance ≠ NaN → amount ≠ NaN →
        ((i.WithdrawFunds ctx k amount).1 = none ↔
          acc.Status = Active ∧ amount.le acc.Balance = true)) ∧
      (∀ acc, i.items.lookup k = some acc → acc.Status = Active →
        acc.Balance.lt amount = false →
        i.WithdrawFunds ctx k amount =
          (none,
            { items := i.items.insert k { acc with Balance := acc.Balance.sub amount } })) ∧
      (∀ acc s m e, i.items.lookup k = some acc → acc.Status = Active →
        acc.Balance = Finite s m e → amount = acc.Balance →
        i.WithdrawFunds ctx k amount =
          (none, { items := i.items.insert k { acc with Balance := zero } })) ∧
      (i.items.lookup k = none →
        i.WithdrawFunds ctx k amount = (some Error.AccountNotFound, i)) ∧
      (∀ acc, i.items.lookup k = some acc → acc.Status ≠ Active →
        i.WithdrawFunds ctx k amount = (some Error.AccountBlocked, i)) ∧
      (∀ acc, i.items.lookup k = some acc → acc.Status = Active →
        acc.Balance.lt amount = true →
        i.WithdrawFunds ctx k amount = (some Error.InsufficientFunds, i)) := by
  refine ⟨⟨fun h => ?_, fun ⟨acc, hk, hst, hlt⟩ => ?_⟩, fun acc hk ha hb => ⟨fun h => ?_,
      fun ⟨hst, hle⟩ => ?_⟩,
    fun acc hk hst hlt => WithdrawFunds_of_lookup_f64 hctx hk hst hlt,
    fun acc s m e hk hst hfin hamt => ?_,
    fun hk => WithdrawFunds_not_found_f64 amount hctx hk,
    fun acc hk hst => WithdrawFunds_blocked_f64 amount hctx hk hst,
    fun acc hk hst hlt => WithdrawFunds_insufficient_f64 hctx hk hst hlt⟩
  · obtain ⟨acc, -, hk, hst, hlt, -⟩ := WithdrawFunds_ok_inv_f64 h
    exact ⟨acc, hk, hst, hlt⟩
  · rw [WithdrawFunds_of_lookup_f64 hctx hk hst hlt]
  · obtain ⟨acc1, -, hk1, hst, hlt, -⟩ := WithdrawFunds_ok_inv_f64 h
    rw [hk] at hk1
    cases hk1
    exact ⟨hst, le_of_lt_eq_false ha hb hlt⟩
  · rw [WithdrawFunds_of_lookup_f64 hctx hk hst (lt_eq_false_of_le hle)]
  · subst hamt
    rw [WithdrawFunds_of_lookup_f64 hctx hk hst (lt_irrefl _), hfin, sub_self_finite]

/-- The amended C9 on the test store: withdrawing exactly the whole balance,
100, of `testAccountActive` returns nil and leaves 0; `TESTIBAN` is not stored;
`testAccountDisabled` is blocked; 100 from `testAccountWithZeroBalance` is
more than it holds. -/
theorem withdrawFunds_cases_witness :
    (createStorageWithTestAccounts.WithdrawFunds Context.Background
        testAccountActive.IBAN (ofNat 100)).1 = none ∧
      createStorageWithTestAccounts.WithdrawFunds Context.Background
        testAccountActive.IBAN (ofNat 100) =
        (none, { items := (createStorageWithTestAccounts.items.insert testAccountActive.IBAN
          { testAccountActive with Balance := zero }) }) ∧
      createStorageWithTestAccounts.WithdrawFunds Context.Background "TESTIBAN" (ofNat 100) =
        (some Error.AccountNotFound, createStorageWithTestAccounts) ∧
      createStorageWithTestAccounts.WithdrawFunds Context.Background
        testAccountDisabled.IBAN (ofNat 100) =
        (some Error.AccountBlocked, createStorageWithTestAccounts) ∧
      createStorageWithTestAccounts.WithdrawFunds Context.Background
        testAccountWithZeroBalance.IBAN (ofNat 100) =
        (some Error.InsufficientFunds, createStorageWithTestAccounts) :=
  ⟨(withdrawFunds_cases createStorageWithTestAccounts Context.Background
      testAccountActive.IBAN (ofNat 100) rfl).2.1 testAccountActive
      lookup_testAccountActive_f64 (by decide) (by decide) |>.mpr ⟨rfl, by decide⟩,
    (withdrawFunds_cases createStorageWithTestAccounts Context.Background
      testAccountActive.IBAN (ofNat 100) rfl).2.2.2.1 testAccountActive false
      7036874417766400 (-46) lookup_testAccountActive_f64 rfl ofNat_100 rfl,
    (withdrawFunds_cases createStorageWithTestAccounts Context.Background "TESTIBAN"
      (ofNat 100) rfl).2.2.2.2.1 (by decide),
    (withdrawFunds_cases createStorageWithTestAccounts Context.Background
      testAccountDisabled.IBAN (ofNat 100) rfl).2.2.2.2.2.1 testAccountDisabled
      (by decide) (by decide),
    (withdrawFunds_cases createStorageWithTestAccounts Context.Background
      testAccountWithZeroBalance.IBAN (ofNat 100) rfl).2.2.2.2.2.2 testAccountWithZeroBalance
      lookup_testAccountWithZeroBalance_f64 rfl zero_lt_hundred⟩

/-- C9 as stated fails for an amount that is a NaN: on the test store
`testAccountActive` is stored and Active, its balance 100 is not `>=` a NaN,
and yet withdrawing a NaN from it under a live context returns nil, not
`InsufficientFunds`, and leaves the balance a NaN.  And withdrawing the whole
of an infinite balance does not leave 0: after a deposit of `+Inf` the
withdrawal of `+Inf` returns nil and leaves a NaN. -/
theorem withdrawFunds_cases_counterexample :
    (createStorageWithTestAccounts.items.lookup testAccountActive.IBAN =
        some testAccountActive ∧
      testAccountActive.Status = Active ∧
      Float64.le NaN testAccountActive.Balance = false ∧
      createStorageWithTestAccounts.WithdrawFunds Context.Background
        testAccountActive.IBAN NaN =
        (none, { items := (createStorageWithTestAccounts.items.insert testAccountActive.IBAN
          { testAccountActive with Balance := NaN }) }) ∧
      (createStorageWithTestAccounts.WithdrawFunds Context.Background
        testAccountActive.IBAN NaN).1 ≠ some Error.InsufficientFunds) ∧
    (Float64.le (Float64.Inf false) (Float64.Inf false) = true ∧
      (createStorageWithTestAccounts.DepositFunds Context.Background
        testAccountActive.IBAN (Float64.Inf false)).2.items.lookup testAccountActive.IBAN =
        some { testAccountActive with Balance := Float64.Inf false } ∧
      ((createStorageWithTestAccounts.DepositFunds Context.Background
        testAccountActive.IBAN (Float64.Inf false)).2.WithdrawFunds Context.Background
        testAccountActive.IBAN (Float64.Inf false)).1 = none ∧
      balanceOf ((createStorageWithTestAccounts.DepositFunds Context.Background
        testAccountActive.IBAN (Float64.Inf false)).2.WithdrawFunds Context.Background
        testAccountActive.IBAN (Float64.Inf false)).2 testAccountActive.IBAN = some NaN ∧
      NaN ≠ zero) := by
  have hw := @WithdrawFunds_of_lookup_f64 createStorageWithTestAccounts Context.Background
    testAccountActive.IBAN testAccountActive NaN rfl lookup_testAccountActive_f64 rfl
    (by decide)
  have hd := @DepositFunds_of_lookup_f64 createStorageWithTestAccounts Context.Background
    testAccountActive.IBAN testAccountActive (Float64.Inf false) rfl lookup_testAccountActive_f64 rfl
  have hk2 : (createStorageWithTestAccounts.DepositFunds Context.Background
      testAccountActive.IBAN (Float64.Inf false)).2.items.lookup testAccountActive.IBAN =
      some { testAccountActive with Balance := Float64.Inf false } := by
    rw [hd]
    exact (Finmap.lookup_insert _).trans (congrArg some (by
      show ({ testAccountActive with Balance := (ofNat 100).add (Float64.Inf false) } : Account) = _
      rw [ofNat_100]
      rfl))
  have hw2 := @WithdrawFunds_of_lookup_f64
    (createStorageWithTestAccounts.DepositFunds Context.Background
      testAccountActive.IBAN (Float64.Inf false)).2 Context.Background
    testAccountActive.IBAN { testAccountActive with Balance := Float64.Inf false } (Float64.Inf false) rfl
    hk2 rfl (by decide)
  refine ⟨⟨lookup_testAccountActive_f64, rfl, by decide, ?_, by rw [hw]; decide⟩,
    by decide, hk2, by rw [hw2], ?_, by decide⟩
  · rw [hw]
    exact congrArg (fun b => ((none : Option Error),
      ({ items := (createStorageWithTestAccounts.items.insert testAccountActive.IBAN
        { testAccountActive with Balance := b }) } : InMemoryStorage))) (by decide)
  · rw [hw2]
    simp only [balanceOf, Finmap.lookup_insert, Option.map_some']
    exact congrArg some (by decide)

/-- C21, as amended: for a stored Active account `A` and an amount
`x <= A.balance`, `TransferFunds(A, A, x)` under a live context returns nil,
leaves every other account as it was and `A` with the balance
`(A.balance - x) + x` as `float64` computes it; the store is identical to the
store before the call exactly when that value is `A.balance`. -/
theorem self_transfer_noop (i : InMemoryStorage) (ctx : Context) (k : iban.IBAN)
    (acc : Account) (x : Float64) (hctx : ctx.Err = none) (hk : i.items.lookup k = some acc)
    (hst : acc.Status = Active) (hbal : x.le acc.Balance = true) :
    i.TransferFunds ctx k k x =
        (none,
          { items := i.items.insert k { acc with Balance := (acc.Balance.sub x).add x } }) ∧
      (∀ j, j ≠ k → (i.TransferFunds ctx k k x).2.items.lookup j = i.items.lookup j) ∧
      (i.TransferFunds ctx k k x = (none, i) ↔ (acc.Balance.sub x).add x = acc.Balance) := by
  have ht := TransferFunds_self_f64 hctx hk hst (lt_eq_false_of_le hbal)
  refine ⟨ht, fun j hj => ?_, ⟨fun h => ?_, fun h => ?_⟩⟩
  · rw [ht]
    exact Finmap.lookup_insert_of_ne _ hj
  · have h2 : (i.TransferFunds ctx k k x).2.items.lookup k = some acc := by
      rw [h]
      exact hk
    rw [ht] at h2
    have h3 := (Finmap.lookup_insert i.items).symm.trans h2
    exact congrArg Account.Balance (Option.some.inj h3)
  · rw [ht, h]
    have h4 : i.items.insert k acc = i.items := storage.insert_of_lookup hk
    show (none, ({ items := i.items.insert k acc } : InMemoryStorage)) = (none, i)
    rw [h4]

/-- The amended C21 on the test store: 50 from `testAccountActive`, which
holds 100, to itself under a live context returns nil and the test store, for
`(100 - 50) + 50` is 100. -/
theorem self_transfer_noop_witness :
    createStorageWithTestAccounts.TransferFunds Context.Background
        testAccountActive.IBAN testAccountActive.IBAN (ofNat 50) =
      (none, createStorageWithTestAccounts) :=
  (self_transfer_noop createStorageWithTestAccounts Context.Background
    testAccountActive.IBAN testAccountActive (ofNat 50) rfl lookup_testAccountActive_f64 rfl
    (by decide)).2.2.mpr (by
      show ((ofNat 100).sub (ofNat 50)).add (ofNat 50) = ofNat 100
      rw [hundred_sub_fifty, fifty_add_fifty])

/-- C21 as stated fails in two ways.  Without a condition on the signal: on
the test store `TransferFunds` of 50 from `testAccountActive` to itself with a
cancelled context returns `context.Canceled`.  And where an operation rounds:
an account holding 9007199254740994 is stored, Active and holds at least 1,
the transfer of 1 from it to itself under a live context returns nil, and the
balance afterwards is 9007199254740992, so the store is not the store before
the call. -/
theorem self_transfer_noop_counterexample :
    (createStorageWithTestAccounts.items.lookup testAccountActive.IBAN =
        some testAccountActive ∧
      testAccountActive.Status = Active ∧ (ofNat 50).le testAccountActive.Balance = true ∧
      (createStorageWithTestAccounts.TransferFunds Context.Cancelled
        testAccountActive.IBAN testAccountActive.IBAN (ofNat 50)).1 = some Error.Canceled) ∧
    (largeStorage.items.lookup largeAccount.IBAN = some largeAccount ∧
      largeAccount.Status = Active ∧ (ofNat 1).le largeAccount.Balance = true ∧
      (largeStorage.TransferFunds Context.Background
        largeAccount.IBAN largeAccount.IBAN (ofNat 1)).1 = none ∧
      balanceOf (largeStorage.TransferFunds Context.Background
        largeAccount.IBAN largeAccount.IBAN (ofNat 1)).2 largeAccount.IBAN =
        some (ofNat 9007199254740992) ∧
      balanceOf largeStorage largeAccount.IBAN = some (ofNat 9007199254740994) ∧
      ofNat 9007199254740992 ≠ ofNat 9007199254740994 ∧
      (largeStorage.TransferFunds Context.Background
        largeAccount.IBAN largeAccount.IBAN (ofNat 1)).2 ≠ largeStorage) := by
  have hle1 : (ofNat 1).le largeAccount.Balance = true := by
    show (ofNat 1).le (ofNat 9007199254740994) = true
    rw [ofNat_1, ofNat_large]
    decide
  have ht := TransferFunds_self_f64 (show Context.Background.Err = none from rfl)
    lookup_largeAccount_f64 rfl (lt_eq_false_of_le hle1)
  have hb0 : balanceOf largeStorage largeAccount.IBAN = some (ofNat 9007199254740994) := by
    rw [balanceOf, lookup_largeAccount_f64]
    rfl
  have hb1 : balanceOf (largeStorage.TransferFunds Context.Background
      largeAccount.IBAN largeAccount.IBAN (ofNat 1)).2 largeAccount.IBAN =
      some (ofNat 9007199254740992) := by
    rw [ht]
    simp only [balanceOf, Finmap.lookup_insert, Option.map_some']
    exact congrArg some (by
      show ((ofNat 9007199254740994).sub (ofNat 1)).add (ofNat 1) = _
      rw [large_sub_one, large_below_add_one])
  refine ⟨⟨lookup_testAccountActive_f64, rfl, by decide,
      by rw [TransferFunds_done_f64 _ _ _ (show Context.Cancelled.Err = some Error.Canceled
        from rfl)]⟩,
    lookup_largeAccount_f64, rfl, hle1, by rw [ht], hb1, hb0, large_below_ne_large, ?_⟩
  intro h
  rw [h, hb0] at hb1
  exact large_below_ne_large (Option.some.inj hb1).symm

end binary64

end PaymentSys
